import Mathlib

/-!
# gst-uart: serial link engine

A shallow embedding of the C sources of the gst-uart plugin
(`bitswap.c`, `uart.c`, `gstuartsink.c`, `gstuartsrc.c`) together with the
properties of the bit transform, the sender and receiver protocol and the
line configuration that are checked against them.

Conventions of the embedding:
* a C `unsigned char` / `guint8` is a `Byte` (`Fin 256`); a byte buffer is a `List Byte`;
* `unsigned long` arithmetic is arithmetic on `Nat` reduced modulo `2 ^ w`, where `w` is the
  width of `unsigned long` on the target (32 or 64);
* calls into the operating system and into GStreamer are recorded, in program order, in a
  list of `Call`s; what those calls answer is an input of the embedded function.
-/

namespace GstUart

/-! ## bitswap.c -/

/-- An `unsigned char`. -/
abbrev Byte := Fin 256

/-- The right-hand side of the assignment in the loop of `bitswap_non64bit`, for one byte:
`((b * 0x0802LU & 0x22110LU) | (b * 0x8020LU & 0x88440LU)) * 0x10101LU >> 16`, evaluated in
`unsigned long` of `w` bits (every product is reduced modulo `2 ^ w`) and then stored into an
`unsigned char` (reduced modulo 256). -/
def bitswap_byte (w : Nat) (b : Byte) : Byte :=
  ⟨(((((b.val * 0x0802 % 2 ^ w) &&& 0x22110) ||| ((b.val * 0x8020 % 2 ^ w) &&& 0x88440))
      * 0x10101 % 2 ^ w) >>> 16) % 256, Nat.mod_lt _ (by decide)⟩

/-- The loop `for (i = 0; i < size; i++) buf[i] = ...` of `bitswap_non64bit` with `n`
iterations left and loop counter `i`.  A store outside the buffer (undefined behaviour in C)
leaves the list as it is. -/
def bitswap_loop (w : Nat) : Nat → Nat → List Byte → List Byte
  | 0, _, buf => buf
  | n + 1, i, buf => bitswap_loop w n (i + 1) (buf.set i (bitswap_byte w (buf.getD i 0)))

/-- `void bitswap_non64bit(unsigned char *buf, size_t size)`: the buffer after the call. -/
def bitswap_non64bit (w : Nat) (buf : List Byte) (size : Nat) : List Byte :=
  bitswap_loop w size 0 buf

/-- The bit trick of `bitswap_non64bit` written over the natural numbers, with no reduction
of the intermediate products. -/
def bitswap_exact (b : Nat) : Nat :=
  ((((b * 0x0802) &&& 0x22110) ||| ((b * 0x8020) &&& 0x88440)) * 0x10101) >>> 16 % 256

/-! ## termios and the operating system -/

/-- The `struct termios` of Linux. -/
structure termios where
  c_iflag : Nat
  c_oflag : Nat
  c_cflag : Nat
  c_lflag : Nat
  c_line : Nat
  c_cc : List Nat
  c_ispeed : Nat
  c_ospeed : Nat
deriving DecidableEq, Repr

/-- The `struct uart` of `uart.h`. -/
structure uart where
  fd : Int
  orig : termios
  current : termios
deriving DecidableEq, Repr

/-- The library and system calls the plugin issues, with the arguments that matter. -/
inductive Call where
  | tcgetattr (fd : Int)
  | tcsetattr (fd : Int) (optional_actions : Nat) (termios_p : termios)
  | tcdrain (fd : Int)
  | write (fd : Int) (data : List Byte) (count : Nat)
  | read (fd : Int) (count : Nat)
  | gst_buffer_map
  | gst_buffer_unmap
  | gst_poll_wait (timeout : Nat)
  | gst_poll_fd_can_read (fd : Int)
  | g_open (filename : String) (flags : Nat)
  | g_close (fd : Int)
  | g_free
  | tcflush (fd : Int) (queue_selector : Nat)
  | gst_buffer_set_size (size : Int)
deriving DecidableEq, Repr

/-- Whether a call is a `write`. -/
def Call.isWrite : Call → Bool
  | Call.write _ _ _ => true
  | _ => false

/-- Whether a call is a `read`. -/
def Call.isRead : Call → Bool
  | Call.read _ _ => true
  | _ => false

/-- Whether a call is a `gst_poll_wait`. -/
def Call.isWait : Call → Bool
  | Call.gst_poll_wait _ => true
  | _ => false

/-- Whether a call is a `tcsetattr`. -/
def Call.isSetattr : Call → Bool
  | Call.tcsetattr _ _ _ => true
  | _ => false

/-- Speed constants of the Linux `<termios.h>` (octal 0, 13 .. 17, 10001 .. 10004). -/
def B0 : Nat := 0
/-- Linux `B2400`. -/
def B2400 : Nat := 0o13
/-- Linux `B4800`. -/
def B4800 : Nat := 0o14
/-- Linux `B9600`. -/
def B9600 : Nat := 0o15
/-- Linux `B19200`. -/
def B19200 : Nat := 0o16
/-- Linux `B38400`. -/
def B38400 : Nat := 0o17
/-- Linux `B57600`. -/
def B57600 : Nat := 0o10001
/-- Linux `B115200`. -/
def B115200 : Nat := 0o10002
/-- Linux `B230400`. -/
def B230400 : Nat := 0o10003
/-- Linux `B460800`. -/
def B460800 : Nat := 0o10004
/-- Linux `TCSAFLUSH`. -/
def TCSAFLUSH : Nat := 2

/-- The terminal device and the process's view of it: the attributes the device holds, the
descriptors open on it, the outcome scripted for the coming fallible calls (`true`: the call
fails; an exhausted script lets calls succeed) and the calls issued so far, oldest first. -/
structure Os where
  attrs : termios
  fds : List Int
  faults : List Bool
  calls : List Call
deriving DecidableEq, Repr

/-- Whether the next call on descriptor `fd` succeeds. -/
def Os.succeeds (os : Os) (fd : Int) : Bool :=
  decide (fd ∈ os.fds) && !(os.faults.headD false)

/-- Record a call and consume one entry of the fault script. -/
def Os.step (os : Os) (c : Call) : Os :=
  { os with faults := os.faults.tail, calls := os.calls ++ [c] }

/-- `tcgetattr(fd, termios_p)`: the return value and the content of `*termios_p` after the
call (unchanged when the call fails). -/
def tcgetattr (os : Os) (fd : Int) (termios_p : termios) : Int × termios × Os :=
  if os.succeeds fd then (0, os.attrs, os.step (Call.tcgetattr fd))
  else (-1, termios_p, os.step (Call.tcgetattr fd))

/-- `tcsetattr(fd, optional_actions, termios_p)` on a device that stores the attributes it is
given. -/
def tcsetattr (os : Os) (fd : Int) (optional_actions : Nat) (termios_p : termios) : Int × Os :=
  if os.succeeds fd then
    (0, { os.step (Call.tcsetattr fd optional_actions termios_p) with attrs := termios_p })
  else (-1, os.step (Call.tcsetattr fd optional_actions termios_p))

/-- The speeds `cfsetspeed` accepts: the `B` constants of Linux, `B0` .. `B38400` and
`B57600` .. `B4000000`. -/
def valid_speed (speed : Nat) : Bool :=
  decide (speed ≤ 0o17) || (decide (0o10001 ≤ speed) && decide (speed ≤ 0o10017))

/-- `cfsetspeed(termios_p, speed)`: sets the input and the output speed. -/
def cfsetspeed (termios_p : termios) (speed : Nat) : Int × termios :=
  if valid_speed speed then (0, { termios_p with c_ispeed := speed, c_ospeed := speed })
  else (-1, termios_p)

/-- `cfgetispeed(termios_p)`. -/
def cfgetispeed (termios_p : termios) : Nat :=
  termios_p.c_ispeed

/-! ## uart.c -/

/-- A `GError`: domain quark, code and message. -/
structure GError where
  domain : String
  code : Nat
  message : String
deriving DecidableEq, Repr

/-- `UART_SETTING_ERROR`, the quark of `uart_setting_error_quark`. -/
def UART_SETTING_ERROR : String := "uart-setting-error-quark"
/-- First member of `UartSettingError`. -/
def UART_SETTING_ERROR_NO_BAUD : Nat := 0
/-- Second member of `UartSettingError`. -/
def UART_SETTING_ERROR_INVALID_ARGS : Nat := 1

/-- How a function that may reach `g_error` ends: it returns, or `g_error` aborts the
process. -/
inductive Exit (α : Type) where
  | ret (a : α)
  | abort (msg : String) (os : Os)
deriving Repr

/-- `static int speed_to_baud(speed_t speed)`. -/
def speed_to_baud (speed : Nat) : Int :=
  if speed = B2400 then 2400
  else if speed = B4800 then 4800
  else if speed = B9600 then 9600
  else if speed = B19200 then 19200
  else if speed = B38400 then 38400
  else if speed = B57600 then 57600
  else if speed = B115200 then 115200
  else if speed = B230400 then 230400
  else if speed = B460800 then 460800
  else -1

/-- `static speed_t baud_to_speed(int baud)`. -/
def baud_to_speed (baud : Int) : Nat :=
  if baud = 2400 then B2400
  else if baud = 4800 then B4800
  else if baud = 9600 then B9600
  else if baud = 19200 then B19200
  else if baud = 38400 then B38400
  else if baud = 57600 then B57600
  else if baud = 115200 then B115200
  else if baud = 230400 then B230400
  else if baud = 460800 then B460800
  else B0

/-- `int uart_get_baud_rate(struct uart *uart)`; `options` is the indeterminate initial
content of the local of that name. -/
def uart_get_baud_rate (os : Os) (uart : Option uart) (options : termios) : Int × Os :=
  match uart with
  | none => (-1, os)
  | some u =>
    let (_, options, os) := tcgetattr os u.fd options
    (speed_to_baud (cfgetispeed options), os)

/-- What `uart_set_baud_rate` leaves behind when it returns: the return value, the link,
`*error` and the operating system. -/
structure SetBaud where
  ret : Int
  uart : Option uart
  error : Option GError
  os : Os
deriving DecidableEq, Repr

/-- `int uart_set_baud_rate(struct uart *uart, int baud, GError **error)`, called with
`*error == NULL`; `options` is the indeterminate initial content of the local of that name. -/
def uart_set_baud_rate (os : Os) (uart : Option uart) (baud : Int) (options : termios) :
    Exit SetBaud :=
  match uart with
  | none => Exit.ret ⟨-1, none, none, os⟩
  | some u =>
    let speed := baud_to_speed baud
    if speed = B0 then
      Exit.ret ⟨-1, some u,
        some ⟨UART_SETTING_ERROR, UART_SETTING_ERROR_NO_BAUD,
          "Unsupported baud rate " ++ toString baud⟩, os⟩
    else
      let (ret, options, os) := tcgetattr os u.fd options
      if ret < 0 then Exit.abort "tcgetattr" os
      else
        let (ret, options) := cfsetspeed options speed
        if ret < 0 then Exit.abort "cfsetspeed" os
        else
          let (ret, os) := tcsetattr os u.fd TCSAFLUSH options
          if ret < 0 then Exit.abort "tcsetattr" os
          else
            let (ret, options, os) := tcgetattr os u.fd options
            if ret < 0 then Exit.abort "tcgetattr" os
            else Exit.ret ⟨ret, some { u with current := options }, none, os⟩

/-- The baud rates `baud_to_speed` knows. -/
def supported_bauds : List Int :=
  [2400, 4800, 9600, 19200, 38400, 57600, 115200, 230400, 460800]

/-- The `*error` a call of `uart_set_baud_rate` leaves: the one it set when it returned,
none when `g_error` ended the process (no `g_set_error` precedes a `g_error`). -/
def set_baud_error : Exit SetBaud → Option GError
  | Exit.ret r => r.error
  | Exit.abort _ _ => none

/-- The message of the `g_error` that ended the process, if one did. -/
def Exit.aborted_with {α : Type} : Exit α → Option String
  | Exit.ret _ => none
  | Exit.abort msg _ => some msg

/-- The calls issued up to the `g_error` that ended the process (none when the function
returned). -/
def Exit.calls_at_abort {α : Type} : Exit α → List Call
  | Exit.ret _ => []
  | Exit.abort _ os => os.calls

/-- The value a function returned, if it returned. -/
def Exit.returned {α : Type} : Exit α → Option α
  | Exit.ret a => some a
  | Exit.abort _ _ => none

/-- The `enum UartParity` of `uart.h`. -/
inductive UartParity where
  | UART_PARITY_NO
  | UART_PARITY_EVEN
  | UART_PARITY_ODD
deriving DecidableEq, Repr

/-- `int uart_flush(struct uart *uart)`: the calls it issues (`tcdrain` on the link's
descriptor, nothing for a null link). -/
def uart_flush (uart : Option uart) : List Call :=
  match uart with
  | none => []
  | some u => [Call.tcdrain u.fd]

/-- Linux `TCIOFLUSH`. -/
def TCIOFLUSH : Nat := 2
/-- Linux `O_RDWR`. -/
def O_RDWR : Nat := 0o2
/-- Linux `O_NOCTTY`. -/
def O_NOCTTY : Nat := 0o400
/-- Linux `O_CLOEXEC`. -/
def O_CLOEXEC : Nat := 0o2000000
/-- Linux `c_iflag` bit `IGNBRK`. -/
def IGNBRK : Nat := 0o1
/-- Linux `c_iflag` bit `BRKINT`. -/
def BRKINT : Nat := 0o2
/-- Linux `c_iflag` bit `PARMRK`. -/
def PARMRK : Nat := 0o10
/-- Linux `c_iflag` bit `ISTRIP`. -/
def ISTRIP : Nat := 0o40
/-- Linux `c_iflag` bit `INLCR`. -/
def INLCR : Nat := 0o100
/-- Linux `c_iflag` bit `IGNCR`. -/
def IGNCR : Nat := 0o200
/-- Linux `c_iflag` bit `ICRNL`. -/
def ICRNL : Nat := 0o400
/-- Linux `c_iflag` bit `IXON`. -/
def IXON : Nat := 0o2000
/-- Linux `c_oflag` bit `OPOST`. -/
def OPOST : Nat := 0o1
/-- Linux `c_lflag` bit `ISIG`. -/
def ISIG : Nat := 0o1
/-- Linux `c_lflag` bit `ICANON`. -/
def ICANON : Nat := 0o2
/-- Linux `c_lflag` bit `ECHO`. -/
def ECHO : Nat := 0o10
/-- Linux `c_lflag` bit `ECHONL`. -/
def ECHONL : Nat := 0o100
/-- Linux `c_lflag` bit `IEXTEN`. -/
def IEXTEN : Nat := 0o100000
/-- Linux `c_cflag` mask `CSIZE`. -/
def CSIZE : Nat := 0o60
/-- Linux `c_cflag` value `CS8`. -/
def CS8 : Nat := 0o60
/-- Linux `c_cflag` bit `CSTOPB`. -/
def CSTOPB : Nat := 0o100
/-- Linux `c_cflag` bit `PARENB`. -/
def PARENB : Nat := 0o400
/-- Linux `c_cflag` bit `PARODD`. -/
def PARODD : Nat := 0o1000
/-- Linux index `VTIME` of `c_cc`. -/
def VTIME : Nat := 5
/-- Linux index `VMIN` of `c_cc`. -/
def VMIN : Nat := 6

/-- The C statement `x &= ~mask` on a `tcflag_t` (32 bits). -/
def clear_bits (x mask : Nat) : Nat :=
  x &&& (0xFFFFFFFF ^^^ mask)

/-- `cfmakeraw(termios_p)` as glibc defines it. -/
def cfmakeraw (t : termios) : termios :=
  { t with
    c_iflag := clear_bits t.c_iflag
      (IGNBRK ||| BRKINT ||| PARMRK ||| ISTRIP ||| INLCR ||| IGNCR ||| ICRNL ||| IXON),
    c_oflag := clear_bits t.c_oflag OPOST,
    c_lflag := clear_bits t.c_lflag (ECHO ||| ECHONL ||| ICANON ||| ISIG ||| IEXTEN),
    c_cflag := clear_bits t.c_cflag (CSIZE ||| PARENB) ||| CS8,
    c_cc := (t.c_cc.set VMIN 1).set VTIME 0 }

/-- The descriptor the next successful `open` returns: one above every descriptor in use
(and above the standard three). -/
def Os.fresh_fd (os : Os) : Int :=
  os.fds.foldl max 2 + 1

/-- `g_open(filename, flags)`: a fresh descriptor on the device, or -1 when the call fails. -/
def g_open (os : Os) (filename : String) (flags : Nat) : Int × Os :=
  if os.faults.headD false then (-1, os.step (Call.g_open filename flags))
  else
    (os.fresh_fd, { os.step (Call.g_open filename flags) with fds := os.fresh_fd :: os.fds })

/-- `g_close(fd, NULL)`: releases the descriptor. -/
def g_close (os : Os) (fd : Int) : Bool × Os :=
  if os.succeeds fd then
    (true, { os.step (Call.g_close fd) with fds := os.fds.filter (fun d => d ≠ fd) })
  else (false, os.step (Call.g_close fd))

/-- `tcflush(fd, queue_selector)`. -/
def tcflush (os : Os) (fd : Int) (queue_selector : Nat) : Int × Os :=
  if os.succeeds fd then (0, os.step (Call.tcflush fd queue_selector))
  else (-1, os.step (Call.tcflush fd queue_selector))

/-- `struct uart* uart_open(const char *name, int flags)`; `fresh` is the indeterminate
content of the structure `g_new` returns.  The result is never a null pointer. -/
def uart_open (os : Os) (name : String) (flags : Nat) (fresh : uart) : Option uart × Os :=
  let uart := fresh
  let (fd, os) := g_open os name (flags ||| O_NOCTTY ||| O_CLOEXEC)
  let uart := { uart with fd := fd }
  let (_, os) := tcflush os uart.fd TCIOFLUSH
  let (_, current, os) := tcgetattr os uart.fd uart.current
  let uart := { uart with current := current }
  let uart := { uart with orig := uart.current }
  (some uart, os)

/-- `struct uart* uart_open_raw(const char *name, int flags)`. -/
def uart_open_raw (os : Os) (name : String) (flags : Nat) (fresh : uart) : Option uart × Os :=
  match uart_open os name flags fresh with
  | (none, os) => (none, os)
  | (some uart, os) =>
    let uart := { uart with current := { uart.current with c_iflag := 0 } }
    let uart := { uart with current := { uart.current with c_oflag := 0 } }
    let uart := { uart with current := cfmakeraw uart.current }
    let (_, os) := tcsetattr os uart.fd TCSAFLUSH uart.current
    let (_, current, os) := tcgetattr os uart.fd uart.current
    (some { uart with current := current }, os)

/-- `void uart_close(struct uart *uart)`. -/
def uart_close (os : Os) (uart : Option uart) : Os :=
  match uart with
  | none => os
  | some u =>
    let (_, os) := tcsetattr os u.fd TCSAFLUSH u.orig
    let (_, os) := g_close os u.fd
    os.step Call.g_free

/-- `enum UartParity uart_get_parity(struct uart *uart)`; `none` is the -1 returned for a
null link; `options` is the indeterminate initial content of the local of that name. -/
def uart_get_parity (os : Os) (uart : Option uart) (options : termios) :
    Option UartParity × Os :=
  match uart with
  | none => (none, os)
  | some u =>
    let ret := UartParity.UART_PARITY_NO
    let (_, options, os) := tcgetattr os u.fd options
    if options.c_cflag &&& PARENB ≠ 0 then
      if options.c_cflag &&& PARODD ≠ 0 then (some UartParity.UART_PARITY_ODD, os)
      else (some UartParity.UART_PARITY_EVEN, os)
    else (some ret, os)

/-- `int uart_set_parity(struct uart *uart, enum UartParity parity)`; `options` is the
indeterminate initial content of the local of that name. -/
def uart_set_parity (os : Os) (uart : Option uart) (parity : UartParity) (options : termios) :
    Int × Os :=
  match uart with
  | none => (-1, os)
  | some u =>
    let (_, options, os) := tcgetattr os u.fd options
    let options :=
      match parity with
      | UartParity.UART_PARITY_EVEN =>
        let options := { options with c_cflag := options.c_cflag ||| PARENB }
        { options with c_cflag := clear_bits options.c_cflag PARODD }
      | UartParity.UART_PARITY_ODD =>
        let options := { options with c_cflag := options.c_cflag ||| PARENB }
        { options with c_cflag := options.c_cflag ||| PARODD }
      | UartParity.UART_PARITY_NO =>
        { options with c_cflag := clear_bits options.c_cflag PARENB }
    tcsetattr os u.fd TCSAFLUSH options

/-- `int uart_get_stop_bit(struct uart *uart)`. -/
def uart_get_stop_bit (os : Os) (uart : Option uart) (options : termios) : Int × Os :=
  match uart with
  | none => (-1, os)
  | some u =>
    let (_, options, os) := tcgetattr os u.fd options
    if options.c_cflag &&& CSTOPB ≠ 0 then (2, os) else (1, os)

/-- `int uart_set_stop_bit_1(struct uart *uart)`. -/
def uart_set_stop_bit_1 (os : Os) (uart : Option uart) (options : termios) : Int × Os :=
  match uart with
  | none => (-1, os)
  | some u =>
    let (_, options, os) := tcgetattr os u.fd options
    let options := { options with c_cflag := clear_bits options.c_cflag CSTOPB }
    tcsetattr os u.fd TCSAFLUSH options

/-- `int uart_set_stop_bit_2(struct uart *uart)`. -/
def uart_set_stop_bit_2 (os : Os) (uart : Option uart) (options : termios) : Int × Os :=
  match uart with
  | none => (-1, os)
  | some u =>
    let (_, options, os) := tcgetattr os u.fd options
    let options := { options with c_cflag := options.c_cflag ||| CSTOPB }
    tcsetattr os u.fd TCSAFLUSH options

/-- One reconfiguration call on an open link. -/
inductive Reconfig where
  | baud_rate (baud : Int)
  | parity (parity : UartParity)
  | stop_bit_1
  | stop_bit_2
deriving DecidableEq, Repr

/-- A sequence of `uart_set_baud_rate`, `uart_set_parity`, `uart_set_stop_bit_1` and
`uart_set_stop_bit_2` calls on the link `u`, in order; `options` is the indeterminate initial
content of the locals of that name. -/
def reconfigure (options : termios) : Os → uart → List Reconfig → Exit (Os × uart)
  | os, u, [] => Exit.ret (os, u)
  | os, u, Reconfig.baud_rate baud :: rest =>
    match uart_set_baud_rate os (some u) baud options with
    | Exit.abort msg os => Exit.abort msg os
    | Exit.ret r => reconfigure options r.os (r.uart.getD u) rest
  | os, u, Reconfig.parity parity :: rest =>
    reconfigure options (uart_set_parity os (some u) parity options).2 u rest
  | os, u, Reconfig.stop_bit_1 :: rest =>
    reconfigure options (uart_set_stop_bit_1 os (some u) options).2 u rest
  | os, u, Reconfig.stop_bit_2 :: rest =>
    reconfigure options (uart_set_stop_bit_2 os (some u) options).2 u rest

/-! ## GStreamer types -/

/-- The `GstFlowReturn` values the elements return. -/
inductive GstFlowReturn where
  | GST_FLOW_OK
  | GST_FLOW_FLUSHING
  | GST_FLOW_ERROR
deriving DecidableEq, Repr

/-- A `GstPoll` set, reduced to its flushing flag. -/
structure GstPoll where
  flushing : Bool
deriving DecidableEq, Repr

/-- `gst_poll_wait(set, timeout)`: -1 for a null or flushing set, otherwise what the
descriptors answer (`answer`: 0 when the timeout elapses, the number of ready descriptors
when positive, negative on error). -/
def gst_poll_wait (set : Option GstPoll) (answer : Int) : Int :=
  match set with
  | none => -1
  | some s => if s.flushing then -1 else answer

/-! ## gstuartsink.c -/

/-- The `struct _GstUartSinkPrivate`. -/
structure GstUartSinkPrivate where
  device : Option String
  baud_rate : Int
  parity : UartParity
  bitswap : Bool
  acknak : Bool
  acknak_wait : Nat
  uart : Option uart
  fdset_write : Option GstPoll
  fdset_read : Option GstPoll
  bytes_written : Nat
  current_pos : Nat
deriving DecidableEq, Repr

/-- What the line answers during one `render`: the answer of the readiness wait, whether the
descriptor is reported readable, the return value of `read(fd, &acknak, 1)`, the byte that
read stores when it returns a positive count, and the indeterminate initial value of the local
`acknak` (which the `switch` sees when `read` returns 0). -/
structure RenderEnv where
  poll : Int
  can_read : Bool
  red : Int
  rx : Byte
  acknak0 : Byte
deriving DecidableEq, Repr

/-- What one `render` leaves behind: the flow return, the private data, the content of the
buffer's memory (the transform works in place) and the calls issued, oldest first. -/
structure Rendered where
  flow : GstFlowReturn
  priv : GstUartSinkPrivate
  data : List Byte
  calls : List Call
deriving DecidableEq, Repr

/-- `static GstFlowReturn gst_uart_sink_render(GstBaseSink *basesink, GstBuffer *buffer)`.
`bitswap` is the `bitswap(buf, size)` of `bitswap.h`, `buffer` the bytes of the buffer.  The
labels `done` and `resend` are the local functions of those names.  `none`: `priv->uart` is
null and is dereferenced. -/
def gst_uart_sink_render (bitswap : List Byte → Nat → List Byte) (priv : GstUartSinkPrivate)
    (buffer : List Byte) (env : RenderEnv) : Option Rendered :=
  match priv.uart with
  | none => none
  | some u =>
    let flow := GstFlowReturn.GST_FLOW_OK
    let size := buffer.length
    let data := if priv.bitswap then bitswap buffer size else buffer
    let done := fun (flow : GstFlowReturn) (calls : List Call) =>
      some (Rendered.mk flow priv data (calls ++ [Call.gst_buffer_unmap]))
    let resend := fun (flow : GstFlowReturn) (calls : List Call) =>
      done flow (calls ++ [Call.write u.fd data size] ++ uart_flush priv.uart)
    let calls := [Call.gst_buffer_map, Call.write u.fd data size] ++ uart_flush priv.uart
    if priv.acknak then
      let ret := gst_poll_wait priv.fdset_read env.poll
      let calls := calls ++ [Call.gst_poll_wait (priv.acknak_wait * 1000 % 2 ^ 32)]
      if ret < 0 then some (Rendered.mk GstFlowReturn.GST_FLOW_FLUSHING priv data calls)
      else if ret = 0 then resend flow calls
      else
        let calls := calls ++ [Call.gst_poll_fd_can_read u.fd]
        if env.can_read then
          let calls := calls ++ [Call.read u.fd 1]
          let acknak := if 0 < env.red then env.rx else env.acknak0
          if env.red < 0 then done GstFlowReturn.GST_FLOW_ERROR calls
          else if acknak = 0x6 then done flow calls
          else if acknak = 0x15 then resend flow calls
          else done GstFlowReturn.GST_FLOW_ERROR calls
        else done flow calls
    else done flow calls

/-- The writes among the calls of a trace. -/
def writes (calls : List Call) : List Call :=
  calls.filter Call.isWrite

/-- The resource error codes the elements post with `GST_ELEMENT_ERROR`. -/
inductive GstResourceError where
  | NOT_FOUND
  | OPEN_WRITE
  | SETTINGS
  | OPEN_READ_WRITE
deriving DecidableEq, Repr

/-- What `gst_uart_sink_start` leaves behind when it returns: its return value, the private
data, the operating system and the element error it posted. -/
structure SinkStarted where
  ret : Bool
  priv : GstUartSinkPrivate
  os : Os
  error : Option GstResourceError
deriving DecidableEq, Repr

/-- `static gboolean gst_uart_sink_start(GstBaseSink *basesink)`, with debug output off (the
arguments of `GST_DEBUG` are not evaluated).  `fresh` and `options` are the indeterminate
contents of the new `struct uart` and of the locals named `options`; `poll_write` and
`poll_read` are what the two `gst_poll_new(TRUE)` calls return. -/
def gst_uart_sink_start (os : Os) (priv : GstUartSinkPrivate) (fresh : uart)
    (options : termios) (poll_write poll_read : Option GstPoll) : Exit SinkStarted :=
  let no_device := priv.device.isNone || priv.device == some ""
  if no_device then Exit.ret ⟨false, priv, os, some GstResourceError.NOT_FOUND⟩
  else
    let (link, os) := uart_open_raw os (priv.device.getD "") O_RDWR fresh
    let priv := { priv with uart := link }
    match priv.uart with
    | none => Exit.ret ⟨false, priv, os, some GstResourceError.OPEN_WRITE⟩
    | some _ =>
      match uart_set_baud_rate os priv.uart priv.baud_rate options with
      | Exit.abort msg os => Exit.abort msg os
      | Exit.ret r =>
        let priv := { priv with uart := r.uart }
        let os := r.os
        let poll_failed := fun (priv : GstUartSinkPrivate) (os : Os) =>
          let (_, os) := g_close os ((priv.uart.map (fun u => u.fd)).getD (-1))
          let priv := { priv with uart := priv.uart.map (fun u => { u with fd := -1 }) }
          Exit.ret (SinkStarted.mk false priv os (some GstResourceError.OPEN_READ_WRITE))
        if r.error.isSome then
          let (_, os) := g_close os ((priv.uart.map (fun u => u.fd)).getD (-1))
          let priv := { priv with uart := priv.uart.map (fun u => { u with fd := -1 }) }
          Exit.ret ⟨false, priv, os, some GstResourceError.SETTINGS⟩
        else
          let (_, os) := uart_set_parity os priv.uart priv.parity options
          let priv := { priv with fdset_write := poll_write }
          if priv.fdset_write.isNone then poll_failed priv os
          else
            let priv := { priv with fdset_read := poll_read }
            if priv.fdset_read.isNone then poll_failed priv os
            else
              let priv := { priv with bytes_written := 0 }
              let priv := { priv with current_pos := 0 }
              Exit.ret ⟨true, priv, os, none⟩

/-- `static gboolean gst_uart_sink_stop(GstBaseSink *basesink)`. -/
def gst_uart_sink_stop (os : Os) (priv : GstUartSinkPrivate) :
    Bool × GstUartSinkPrivate × Os :=
  match priv.uart with
  | some _ =>
    let os := uart_close os priv.uart
    let priv := { priv with uart := none }
    let priv := { priv with fdset_write := none, fdset_read := none }
    (true, priv, os)
  | none => (true, priv, os)

/-- `static gboolean gst_uart_sink_unlock(GstBaseSink *basesink)`: the two statements between
the lock and the unlock of the object are commented out in the source. -/
def gst_uart_sink_unlock (priv : GstUartSinkPrivate) : Bool × GstUartSinkPrivate :=
  (true, priv)

/-- `static gboolean gst_uart_sink_unlock_stop(GstBaseSink *basesink)`: the two statements
between the lock and the unlock of the object are commented out in the source. -/
def gst_uart_sink_unlock_stop (priv : GstUartSinkPrivate) : Bool × GstUartSinkPrivate :=
  (true, priv)

/-! ## gstuartsrc.c -/

/-- The `struct _GstUartSrcPrivate`. -/
structure GstUartSrcPrivate where
  device : Option String
  baud_rate : Int
  parity : UartParity
  bitswap : Bool
  acknak : Bool
  nak_probability : Nat
  uart : Option uart
  fdset_read : Option GstPoll
  fdset_write : Option GstPoll
deriving DecidableEq, Repr

/-- The event types `gst_uart_src_event` tells apart. -/
inductive GstEventType where
  | GST_EVENT_CUSTOM_UPSTREAM
  | other (type : Nat)
deriving DecidableEq, Repr

/-- What one `gst_uart_src_event` leaves behind: its return value, the function's static
`count` and the calls issued. -/
structure Notified where
  result : Bool
  count : Nat
  calls : List Call
deriving DecidableEq, Repr

/-- `static gboolean gst_uart_src_event(GstBaseSrc *src, GstEvent *event)`.  `count` is the
value of the function's `static guint64 count` on entry (1 when the process starts),
`base_event` what the parent class's handler returns.  `none`: `priv->uart` is null and is
dereferenced. -/
def gst_uart_src_event (base_event : Bool) (priv : GstUartSrcPrivate) (count : Nat)
    (event : GstEventType) : Option Notified :=
  let ack : Byte := 0x6
  let nak : Byte := 0x15
  match event with
  | GstEventType.GST_EVENT_CUSTOM_UPSTREAM =>
    let count := (count + 1) % 2 ^ 64
    if priv.acknak then
      let response :=
        if priv.nak_probability ≠ 0 ∧ count % priv.nak_probability = 0 then nak else ack
      match priv.uart with
      | none => none
      | some u => some ⟨true, count, [Call.write u.fd [response] 1]⟩
    else some ⟨true, count, []⟩
  | GstEventType.other _ => some ⟨base_event, count, []⟩

/-- The initial value of the static `count` of `gst_uart_src_event`. -/
def count_init : Nat := 1

/-- A run of `n` consecutive `GST_EVENT_CUSTOM_UPSTREAM` events from the static counter
`count`: the counter afterwards and the calls issued, oldest first. -/
def notifications (priv : GstUartSrcPrivate) : Nat → Nat → Option (Nat × List Call)
  | 0, count => some (count, [])
  | n + 1, count =>
    match gst_uart_src_event true priv count GstEventType.GST_EVENT_CUSTOM_UPSTREAM with
    | none => none
    | some r =>
      match notifications priv n r.count with
      | none => none
      | some (c, calls) => some (c, r.calls ++ calls)

/-- What `gst_uart_src_start` leaves behind when it returns. -/
structure SrcStarted where
  ret : Bool
  priv : GstUartSrcPrivate
  os : Os
  error : Option GstResourceError
deriving DecidableEq, Repr

/-- `static gboolean gst_uart_src_start(GstBaseSrc *basesrc)`, with debug output off.
`fresh` and `options` are the indeterminate contents of the new `struct uart` and of the
locals named `options`; `poll_read` and `poll_write` are what the two `gst_poll_new(TRUE)`
calls return. -/
def gst_uart_src_start (os : Os) (priv : GstUartSrcPrivate) (fresh : uart)
    (options : termios) (poll_read poll_write : Option GstPoll) : Exit SrcStarted :=
  let no_device := priv.device.isNone || priv.device == some ""
  if no_device then Exit.ret ⟨false, priv, os, some GstResourceError.NOT_FOUND⟩
  else
    let (link, os) := uart_open_raw os (priv.device.getD "") O_RDWR fresh
    let priv := { priv with uart := link }
    match priv.uart with
    | none => Exit.ret ⟨false, priv, os, some GstResourceError.OPEN_WRITE⟩
    | some _ =>
      match uart_set_baud_rate os priv.uart priv.baud_rate options with
      | Exit.abort msg os => Exit.abort msg os
      | Exit.ret r =>
        let priv := { priv with uart := r.uart }
        let os := r.os
        let poll_failed := fun (priv : GstUartSrcPrivate) (os : Os) =>
          let (_, os) := g_close os ((priv.uart.map (fun u => u.fd)).getD (-1))
          let priv := { priv with uart := priv.uart.map (fun u => { u with fd := -1 }) }
          Exit.ret (SrcStarted.mk false priv os (some GstResourceError.OPEN_READ_WRITE))
        if r.error.isSome then
          let (_, os) := g_close os ((priv.uart.map (fun u => u.fd)).getD (-1))
          let priv := { priv with uart := priv.uart.map (fun u => { u with fd := -1 }) }
          Exit.ret ⟨false, priv, os, some GstResourceError.SETTINGS⟩
        else
          let (_, os) := uart_set_parity os priv.uart priv.parity options
          let priv := { priv with fdset_read := poll_read }
          if priv.fdset_read.isNone then poll_failed priv os
          else
            let priv := { priv with fdset_write := poll_write }
            if priv.fdset_write.isNone then poll_failed priv os
            else Exit.ret ⟨true, priv, os, none⟩

/-- `static gboolean gst_uart_src_stop(GstBaseSrc *basesrc)`. -/
def gst_uart_src_stop (os : Os) (priv : GstUartSrcPrivate) : Bool × GstUartSrcPrivate × Os :=
  match priv.uart with
  | some _ =>
    let os := uart_close os priv.uart
    let priv := { priv with uart := none }
    let priv := { priv with fdset_read := none, fdset_write := none }
    (true, priv, os)
  | none => (true, priv, os)

/-- `gst_poll_set_flushing(set, flushing)`; a null set is left alone. -/
def gst_poll_set_flushing (set : Option GstPoll) (flushing : Bool) : Option GstPoll :=
  set.map (fun s => { s with flushing := flushing })

/-- `static gboolean gst_uart_src_unlock(GstBaseSrc *basesrc)`. -/
def gst_uart_src_unlock (priv : GstUartSrcPrivate) : Bool × GstUartSrcPrivate :=
  let priv := { priv with fdset_read := gst_poll_set_flushing priv.fdset_read true }
  let priv := { priv with fdset_write := gst_poll_set_flushing priv.fdset_write true }
  (true, priv)

/-- `static gboolean gst_uart_src_unlock_stop(GstBaseSrc *basesrc)`. -/
def gst_uart_src_unlock_stop (priv : GstUartSrcPrivate) : Bool × GstUartSrcPrivate :=
  let priv := { priv with fdset_read := gst_poll_set_flushing priv.fdset_read false }
  let priv := { priv with fdset_write := gst_poll_set_flushing priv.fdset_write false }
  (true, priv)

/-- `GST_CLOCK_TIME_NONE`. -/
def GST_CLOCK_TIME_NONE : Nat := 2 ^ 64 - 1

/-- What the line answers during one `fill`: the answer of the readiness wait, whether the
descriptor is reported readable, the return value of `read(fd, info.data, size)` and the
bytes pending on the line, of which a successful read stores the first `red`. -/
structure FillEnv where
  poll : Int
  can_read : Bool
  red : Int
  rx : List Byte
deriving DecidableEq, Repr

/-- What one `fill` leaves behind: the flow return, the private data, the content of the
buffer's memory, the size of the buffer and the calls issued, oldest first. -/
structure Filled where
  flow : GstFlowReturn
  priv : GstUartSrcPrivate
  data : List Byte
  size : Nat
  calls : List Call
deriving DecidableEq, Repr

/-- The unit a `fill` hands downstream: the first `size` bytes of the buffer's memory. -/
def Filled.unit (r : Filled) : List Byte :=
  r.data.take r.size

/-- `gst_buffer_set_size(buffer, size)` on a buffer of `old` bytes: the size afterwards; a
negative `size` (-1) leaves the size as it is. -/
def gst_buffer_set_size (old : Nat) (size : Int) : Nat :=
  if size < 0 then old else size.toNat

/-- `static GstFlowReturn gst_uart_src_fill(GstPushSrc *pushsrc, GstBuffer *buffer)`.
`bitswap` is the `bitswap(buf, size)` of `bitswap.h`, `buffer` the memory of the buffer (its
length is the size `gst_buffer_get_sizes` returns).  `none`: `priv->uart` is null and is
dereferenced. -/
def gst_uart_src_fill (bitswap : List Byte → Nat → List Byte) (priv : GstUartSrcPrivate)
    (buffer : List Byte) (env : FillEnv) : Option Filled :=
  let size := buffer.length
  let ret := gst_poll_wait priv.fdset_read env.poll
  let calls := [Call.gst_poll_wait GST_CLOCK_TIME_NONE]
  if ret < 0 then some ⟨GstFlowReturn.GST_FLOW_FLUSHING, priv, buffer, size, calls⟩
  else
    match priv.uart with
    | none => none
    | some u =>
      let calls := calls ++ [Call.gst_poll_fd_can_read u.fd]
      if env.can_read then
        let calls := calls ++ [Call.gst_buffer_map, Call.read u.fd size]
        let red := env.red
        let stored := if 0 < red then env.rx.take red.toNat else []
        let data := stored ++ buffer.drop stored.length
        let data := if priv.bitswap then bitswap data size else data
        let calls := calls ++ [Call.gst_buffer_unmap, Call.gst_buffer_set_size red]
        some ⟨GstFlowReturn.GST_FLOW_OK, priv, data, gst_buffer_set_size size red, calls⟩
      else some ⟨GstFlowReturn.GST_FLOW_OK, priv, buffer, size, calls⟩

/-! ## Example configurations -/

/-- A sink after `start` used in the examples: link on descriptor 5, no transform, ACK/NAK
as given, counters at 0. -/
def sink_example (bitswap acknak : Bool) : GstUartSinkPrivate :=
  { device := some "/dev/ttyS0", baud_rate := 115200, parity := UartParity.UART_PARITY_NO,
    bitswap := bitswap, acknak := acknak, acknak_wait := 100,
    uart := some ⟨5, ⟨0, 0, 0, 0, 0, [], 0, 0⟩, ⟨0, 0, 0, 0, 0, [], 0, 0⟩⟩,
    fdset_write := some ⟨false⟩, fdset_read := some ⟨false⟩,
    bytes_written := 0, current_pos := 0 }

/-- A source after `start` used in the examples: link on descriptor 7, ACK/NAK as given,
NAK denominator `n`. -/
def src_example (acknak : Bool) (n : Nat) : GstUartSrcPrivate :=
  { device := some "/dev/ttyS1", baud_rate := 115200, parity := UartParity.UART_PARITY_NO,
    bitswap := false, acknak := acknak, nak_probability := n,
    uart := some ⟨7, ⟨0, 0, 0, 0, 0, [], 0, 0⟩, ⟨0, 0, 0, 0, 0, [], 0, 0⟩⟩,
    fdset_read := some ⟨false⟩, fdset_write := some ⟨false⟩ }

/-- A terminal at 9600 baud, open on descriptor 5, with no scripted fault. -/
def os_example : Os :=
  { attrs := ⟨0x500, 0x5, 0xcbd, 0x8a3b, 0, [], B9600, B9600⟩, fds := [5], faults := [],
    calls := [] }

/-- A link on descriptor 5 opened on `os_example`. -/
def uart_example : uart :=
  ⟨5, os_example.attrs, os_example.attrs⟩

/-- A terminal at 9600 baud, cooked, with no descriptor open on it yet and no scripted
fault. -/
def os_closed_example : Os :=
  { attrs := ⟨0x500, 0x5, 0xcbd, 0x8a3b, 0, [], B9600, B9600⟩, fds := [], faults := [],
    calls := [] }

/-- The same terminal when the coming `open` is going to fail. -/
def os_noent_example : Os :=
  { os_closed_example with faults := [true] }

/-- The content of freshly allocated, uninitialised memory in the examples. -/
def fresh_example : uart :=
  ⟨0x5a5a, ⟨1, 2, 3, 4, 5, [], 6, 7⟩, ⟨8, 9, 10, 11, 12, [], 13, 14⟩⟩

/-- A sink before `start`, configured for the device `/dev/ttyS0` at `baud`. -/
def sink_unstarted_example (baud : Int) : GstUartSinkPrivate :=
  { device := some "/dev/ttyS0", baud_rate := baud, parity := UartParity.UART_PARITY_NO,
    bitswap := false, acknak := false, acknak_wait := 100, uart := none,
    fdset_write := none, fdset_read := none, bytes_written := 0, current_pos := 0 }

/-- A source before `start`, configured for the device `/dev/ttyS0` at `baud`. -/
def src_unstarted_example (baud : Int) : GstUartSrcPrivate :=
  { device := some "/dev/ttyS0", baud_rate := baud, parity := UartParity.UART_PARITY_NO,
    bitswap := false, acknak := false, nak_probability := 0, uart := none,
    fdset_read := none, fdset_write := none }

/-- A source after `start` with the bit transform on: link on descriptor 7. -/
def src_bitswap_example : GstUartSrcPrivate :=
  { src_example false 0 with bitswap := true }

/-! ## Properties of the bit transform -/

/-- Reducing modulo `2 ^ w` with `24 ≤ w` does not change bits 16 .. 23. -/
theorem shiftRight_mod_of_wide (n w : Nat) (hw : 24 ≤ w) :
    (n % 2 ^ w) >>> 16 % 256 = n >>> 16 % 256 := by
  have h256 : (256 : Nat) = 2 ^ 8 := by norm_num
  rw [h256]
  apply Nat.eq_of_testBit_eq
  intro i
  simp only [Nat.testBit_mod_two_pow, Nat.testBit_shiftRight]
  by_cases hi : i < 8
  · have : 16 + i < w := by omega
    simp [hi, this]
  · simp [hi]

/-- With `unsigned long` of at least 24 bits the stored byte is the value of the bit trick
computed without wraparound. -/
theorem bitswap_byte_val (w : Nat) (hw : 24 ≤ w) (b : Byte) :
    (bitswap_byte w b).val = bitswap_exact b.val := by
  have hb := b.isLt
  have hpow : 2 ^ 24 ≤ 2 ^ w := Nat.pow_le_pow_right (by decide) hw
  have h1 : b.val * 0x0802 % 2 ^ w = b.val * 0x0802 := Nat.mod_eq_of_lt (by omega)
  have h2 : b.val * 0x8020 % 2 ^ w = b.val * 0x8020 := Nat.mod_eq_of_lt (by omega)
  simp only [bitswap_byte, bitswap_exact, h1, h2]
  exact shiftRight_mod_of_wide _ w hw

set_option maxRecDepth 100000 in
/-- The bit trick reverses the eight bits of a byte. -/
theorem bitswap_exact_testBit :
    ∀ b : Fin 256, ∀ k : Fin 8, (bitswap_exact b.val).testBit k.val = b.val.testBit (7 - k.val) := by
  decide

set_option maxRecDepth 100000 in
/-- The bit trick undoes itself on bytes. -/
theorem bitswap_exact_twice : ∀ b : Fin 256, bitswap_exact (bitswap_exact b.val) = b.val := by
  decide

/-- The stored byte transform undoes itself. -/
theorem bitswap_byte_twice (w : Nat) (hw : 24 ≤ w) (b : Byte) :
    bitswap_byte w (bitswap_byte w b) = b := by
  apply Fin.ext
  rw [bitswap_byte_val w hw, bitswap_byte_val w hw]
  exact bitswap_exact_twice b

/-- The loop keeps the length of the buffer. -/
theorem bitswap_loop_length (w : Nat) (n : Nat) :
    ∀ (i : Nat) (buf : List Byte), (bitswap_loop w n i buf).length = buf.length := by
  induction n with
  | zero => intro i buf; rfl
  | succ n ih => intro i buf; simp [bitswap_loop, ih]

/-- The loop with `n` iterations left from counter `i` transforms the bytes at `i .. i + n - 1`
and no other. -/
theorem bitswap_loop_getElem? (w : Nat) (n : Nat) :
    ∀ (i : Nat) (buf : List Byte) (j : Nat),
      (bitswap_loop w n i buf)[j]? =
        if i ≤ j ∧ j < i + n then buf[j]?.map (bitswap_byte w) else buf[j]? := by
  induction n with
  | zero =>
    intro i buf j
    have hc : ¬ (i ≤ j ∧ j < i + 0) := by omega
    rw [if_neg hc]
    rfl
  | succ n ih =>
    intro i buf j
    rw [bitswap_loop, ih]
    by_cases hij : i = j
    · subst hij
      have h1 : ¬ (i + 1 ≤ i ∧ i < i + 1 + n) := by omega
      have h2 : i ≤ i ∧ i < i + (n + 1) := by omega
      rw [if_neg h1, if_pos h2]
      by_cases hlen : i < buf.length
      · simp [hlen, List.getD_eq_getElem?_getD, List.getElem?_eq_getElem hlen]
      · have hle : buf.length ≤ i := Nat.le_of_not_lt hlen
        simp [List.getElem?_eq_none hle, hle]
    · rw [List.getElem?_set_ne hij]
      by_cases hc : i ≤ j ∧ j < i + (n + 1)
      · have hc2 : i + 1 ≤ j ∧ j < i + 1 + n := by omega
        rw [if_pos hc, if_pos hc2]
      · have hc2 : ¬ (i + 1 ≤ j ∧ j < i + 1 + n) := by omega
        rw [if_neg hc, if_neg hc2]

/-- The bytes of the buffer after `bitswap_non64bit`, index by index. -/
theorem bitswap_non64bit_getElem? (w : Nat) (buf : List Byte) (n j : Nat) :
    (bitswap_non64bit w buf n)[j]? =
      if j < n then buf[j]?.map (bitswap_byte w) else buf[j]? := by
  unfold bitswap_non64bit
  rw [bitswap_loop_getElem?]
  simp

/-- Over the whole buffer `bitswap_non64bit` maps the byte transform. -/
theorem bitswap_non64bit_whole (w : Nat) (buf : List Byte) :
    bitswap_non64bit w buf buf.length = buf.map (bitswap_byte w) := by
  apply List.ext_getElem?
  intro j
  rw [bitswap_non64bit_getElem?]
  by_cases hj : j < buf.length
  · simp [hj]
  · simp [hj, List.getElem?_eq_none (Nat.le_of_not_lt hj)]


/-- C1: after `bitswap_non64bit(buf, n)` the buffer has its length unchanged, each byte at an
index `i < n` is the low 8 bits of the bit trick applied to the original byte, which is its
bit reversal (bit `k` of the result is bit `7 - k` of the original, `k = 0 .. 7`), and each
byte at an index `i ≥ n` is untouched; for every width of `unsigned long` of 32 bits or
more. -/
theorem bitswap_non64bit_reverses (w : Nat) (hw : 32 ≤ w) (buf : List Byte) (n i : Nat)
    (hi : i < buf.length) :
    (bitswap_non64bit w buf n).length = buf.length ∧
    (i < n →
      ((bitswap_non64bit w buf n).getD i 0).val =
          ((((buf.getD i 0).val * 0x0802 &&& 0x22110) |||
            ((buf.getD i 0).val * 0x8020 &&& 0x88440)) * 0x10101) >>> 16 % 256 ∧
      ∀ k, k < 8 →
        ((bitswap_non64bit w buf n).getD i 0).val.testBit k =
          (buf.getD i 0).val.testBit (7 - k)) ∧
    (n ≤ i → (bitswap_non64bit w buf n).getD i 0 = buf.getD i 0) := by
  have hw24 : 24 ≤ w := by omega
  refine ⟨bitswap_loop_length w n 0 buf, ?_, ?_⟩
  · intro hin
    have hget : (bitswap_non64bit w buf n).getD i 0 = bitswap_byte w (buf.getD i 0) := by
      simp [List.getD_eq_getElem?_getD, bitswap_non64bit_getElem?, hin,
        List.getElem?_eq_getElem hi]
    rw [hget, bitswap_byte_val w hw24]
    refine ⟨rfl, ?_⟩
    intro k hk
    exact bitswap_exact_testBit (buf.getD i 0) ⟨k, hk⟩
  · intro hni
    have hnot : ¬ i < n := by omega
    simp [List.getD_eq_getElem?_getD, bitswap_non64bit_getElem?, hnot]

/-- Witness of C1: a three-byte buffer transformed over its first two bytes, at index 1, with
a 64-bit `unsigned long`. -/
theorem bitswap_non64bit_reverses_witness :
    (32 ≤ 64 ∧ 1 < [(1 : Byte), 2, 0x80].length) ∧
    (bitswap_non64bit 64 [1, 2, 0x80] 2).length = [(1 : Byte), 2, 0x80].length ∧
    ((bitswap_non64bit 64 [1, 2, 0x80] 2).getD 1 0).val = 0x40 ∧
    (bitswap_non64bit 64 [1, 2, 0x80] 2).getD 2 0 = 0x80 :=
  have h := bitswap_non64bit_reverses 64 (by decide) [1, 2, 0x80] 2 1 (by decide)
  ⟨⟨by decide, by decide⟩, h.1, (h.2.1 (by decide)).1.trans (by decide),
    (bitswap_non64bit_reverses 64 (by decide) [1, 2, 0x80] 2 2 (by decide)).2.2 (by decide)⟩

/-- C2: the byte transform is an involution on the bytes 0 .. 255, and `bitswap_non64bit`
applied twice over the whole of a buffer (of any length, the empty one included) gives the
buffer back; for every width of `unsigned long` of 32 bits or more. -/
theorem bitswap_involution (w : Nat) (hw : 32 ≤ w) :
    (∀ b : Byte, bitswap_byte w (bitswap_byte w b) = b) ∧
    ∀ buf : List Byte,
      bitswap_non64bit w (bitswap_non64bit w buf buf.length) buf.length = buf := by
  have hw24 : 24 ≤ w := by omega
  refine ⟨bitswap_byte_twice w hw24, ?_⟩
  intro buf
  have h2 := bitswap_non64bit_whole w (buf.map (bitswap_byte w))
  rw [List.length_map] at h2
  rw [bitswap_non64bit_whole, h2, List.map_map]
  have hid : (bitswap_byte w ∘ bitswap_byte w) = id := by
    funext b
    exact bitswap_byte_twice w hw24 b
  rw [hid, List.map_id]

/-- Witness of C2: with a 32-bit `unsigned long`, on the byte `0x35` and on a buffer. -/
theorem bitswap_involution_witness :
    32 ≤ 32 ∧ bitswap_byte 32 (bitswap_byte 32 0x35) = 0x35 ∧
    bitswap_non64bit 32 (bitswap_non64bit 32 [0x01, 0xfe, 0x35] 3) 3 = [0x01, 0xfe, 0x35] :=
  ⟨by decide, (bitswap_involution 32 (by decide)).1 0x35,
    (bitswap_involution 32 (by decide)).2 [0x01, 0xfe, 0x35]⟩

/-! ## Properties of the sender -/

/-- C3: with ACK/NAK enabled, when the wait reports the line readable and the one byte read
is `0x06`, `render` returns `GST_FLOW_OK` and the only write it issued is the one write of the
unit (transformed when the bit transform is on): no resend. -/
theorem render_ack_one_write (bitswap : List Byte → Nat → List Byte)
    (priv : GstUartSinkPrivate) (u : uart) (buffer : List Byte) (env : RenderEnv)
    (hu : priv.uart = some u) (hacknak : priv.acknak = true)
    (hwait : 0 < gst_poll_wait priv.fdset_read env.poll) (hcan : env.can_read = true)
    (hred : env.red = 1) (hrx : env.rx = 0x06) :
    ∃ r, gst_uart_sink_render bitswap priv buffer env = some r ∧
      r.flow = GstFlowReturn.GST_FLOW_OK ∧
      writes r.calls =
        [Call.write u.fd (if priv.bitswap then bitswap buffer buffer.length else buffer)
          buffer.length] := by
  have h1 : ¬ gst_poll_wait priv.fdset_read env.poll < 0 := by omega
  have h2 : ¬ gst_poll_wait priv.fdset_read env.poll = 0 := by omega
  simp [gst_uart_sink_render, hu, hacknak, h1, h2, hcan, hred, hrx, writes, uart_flush,
    Call.isWrite, List.filter]

/-- Witness of C3: the unit `[0x41, 0x42]`, answered by `0x06`. -/
theorem render_ack_one_write_witness :
    ∃ r, gst_uart_sink_render (bitswap_non64bit 64) (sink_example false true) [0x41, 0x42]
        ⟨1, true, 1, 0x06, 0⟩ = some r ∧
      r.flow = GstFlowReturn.GST_FLOW_OK ∧
      writes r.calls = [Call.write 5 [0x41, 0x42] 2] :=
  render_ack_one_write (bitswap_non64bit 64) (sink_example false true) _ [0x41, 0x42]
    ⟨1, true, 1, 0x06, 0⟩ rfl rfl (by decide) rfl rfl rfl

/-- C4: with ACK/NAK enabled, when the wait times out or the byte read is `0x15`, `render`
returns `GST_FLOW_OK` having issued exactly two writes, the second with the same bytes and
length as the first (the unit as transformed once when the bit transform is on); the last
calls of the trace are the resend, its drain and the unmap, and the trace holds one wait and
at most one read, so no second response is awaited. -/
theorem render_resend_once (bitswap : List Byte → Nat → List Byte)
    (priv : GstUartSinkPrivate) (u : uart) (buffer : List Byte) (env : RenderEnv)
    (hu : priv.uart = some u) (hacknak : priv.acknak = true)
    (hnak : gst_poll_wait priv.fdset_read env.poll = 0 ∨
      (0 < gst_poll_wait priv.fdset_read env.poll ∧ env.can_read = true ∧ env.red = 1 ∧
        env.rx = 0x15)) :
    ∃ r pre, gst_uart_sink_render bitswap priv buffer env = some r ∧
      r.flow = GstFlowReturn.GST_FLOW_OK ∧
      writes r.calls =
        [Call.write u.fd (if priv.bitswap then bitswap buffer buffer.length else buffer)
           buffer.length,
         Call.write u.fd (if priv.bitswap then bitswap buffer buffer.length else buffer)
           buffer.length] ∧
      r.calls = pre ++
        [Call.write u.fd (if priv.bitswap then bitswap buffer buffer.length else buffer)
           buffer.length, Call.tcdrain u.fd, Call.gst_buffer_unmap] ∧
      (writes pre).length = 1 ∧
      (r.calls.filter Call.isWait).length = 1 ∧ (r.calls.filter Call.isRead).length ≤ 1 := by
  rcases hnak with h0 | ⟨hpos, hcan, hred, hrx⟩
  · have hr : gst_uart_sink_render bitswap priv buffer env =
        some ⟨GstFlowReturn.GST_FLOW_OK, priv,
          if priv.bitswap then bitswap buffer buffer.length else buffer,
          [Call.gst_buffer_map,
            Call.write u.fd (if priv.bitswap then bitswap buffer buffer.length else buffer)
              buffer.length, Call.tcdrain u.fd,
            Call.gst_poll_wait (priv.acknak_wait * 1000 % 2 ^ 32)] ++
          [Call.write u.fd (if priv.bitswap then bitswap buffer buffer.length else buffer)
              buffer.length, Call.tcdrain u.fd, Call.gst_buffer_unmap]⟩ := by
      simp [gst_uart_sink_render, hu, hacknak, h0, uart_flush]
    refine ⟨_, _, hr, rfl, ?_, rfl, ?_⟩ <;>
      simp [writes, Call.isWrite, Call.isWait, Call.isRead, List.filter]
  · have h1 : ¬ gst_poll_wait priv.fdset_read env.poll < 0 := by omega
    have h2 : ¬ gst_poll_wait priv.fdset_read env.poll = 0 := by omega
    have hr : gst_uart_sink_render bitswap priv buffer env =
        some ⟨GstFlowReturn.GST_FLOW_OK, priv,
          if priv.bitswap then bitswap buffer buffer.length else buffer,
          [Call.gst_buffer_map,
            Call.write u.fd (if priv.bitswap then bitswap buffer buffer.length else buffer)
              buffer.length, Call.tcdrain u.fd,
            Call.gst_poll_wait (priv.acknak_wait * 1000 % 2 ^ 32),
            Call.gst_poll_fd_can_read u.fd, Call.read u.fd 1] ++
          [Call.write u.fd (if priv.bitswap then bitswap buffer buffer.length else buffer)
              buffer.length, Call.tcdrain u.fd, Call.gst_buffer_unmap]⟩ := by
      simp [gst_uart_sink_render, hu, hacknak, h1, h2, hcan, hred, hrx, uart_flush]
    refine ⟨_, _, hr, rfl, ?_, rfl, ?_⟩ <;>
      simp [writes, Call.isWrite, Call.isWait, Call.isRead, List.filter]

/-- Witness of C4: the unit `[0x01, 0x02]` with the bit transform on, first with a timeout,
then answered by `0x15`; both writes carry the unit transformed once. -/
theorem render_resend_once_witness :
    (∃ r pre, gst_uart_sink_render (bitswap_non64bit 64) (sink_example true true) [0x01, 0x02]
        ⟨0, false, 0, 0, 0⟩ = some r ∧
      r.flow = GstFlowReturn.GST_FLOW_OK ∧
      writes r.calls = [Call.write 5 [0x80, 0x40] 2, Call.write 5 [0x80, 0x40] 2] ∧
      r.calls = pre ++ [Call.write 5 [0x80, 0x40] 2, Call.tcdrain 5, Call.gst_buffer_unmap] ∧
      (writes pre).length = 1 ∧
      (r.calls.filter Call.isWait).length = 1 ∧ (r.calls.filter Call.isRead).length ≤ 1) ∧
    (∃ r pre, gst_uart_sink_render (bitswap_non64bit 64) (sink_example true true) [0x01, 0x02]
        ⟨1, true, 1, 0x15, 0⟩ = some r ∧
      r.flow = GstFlowReturn.GST_FLOW_OK ∧
      writes r.calls = [Call.write 5 [0x80, 0x40] 2, Call.write 5 [0x80, 0x40] 2] ∧
      r.calls = pre ++ [Call.write 5 [0x80, 0x40] 2, Call.tcdrain 5, Call.gst_buffer_unmap] ∧
      (writes pre).length = 1 ∧
      (r.calls.filter Call.isWait).length = 1 ∧ (r.calls.filter Call.isRead).length ≤ 1) :=
  ⟨render_resend_once (bitswap_non64bit 64) (sink_example true true) _ [0x01, 0x02]
      ⟨0, false, 0, 0, 0⟩ rfl rfl (Or.inl rfl),
   render_resend_once (bitswap_non64bit 64) (sink_example true true) _ [0x01, 0x02]
      ⟨1, true, 1, 0x15, 0⟩ rfl rfl (Or.inr ⟨by decide, rfl, rfl, rfl⟩)⟩

/-- C5: with ACK/NAK enabled, when the wait reports the line readable and the one byte read
is neither `0x06` nor `0x15`, `render` returns `GST_FLOW_ERROR` and the only write it issued is
the one write of the unit: no resend. -/
theorem render_unknown_byte_error (bitswap : List Byte → Nat → List Byte)
    (priv : GstUartSinkPrivate) (u : uart) (buffer : List Byte) (env : RenderEnv)
    (hu : priv.uart = some u) (hacknak : priv.acknak = true)
    (hwait : 0 < gst_poll_wait priv.fdset_read env.poll) (hcan : env.can_read = true)
    (hred : env.red = 1) (hack : env.rx ≠ 0x06) (hnak : env.rx ≠ 0x15) :
    ∃ r, gst_uart_sink_render bitswap priv buffer env = some r ∧
      r.flow = GstFlowReturn.GST_FLOW_ERROR ∧
      writes r.calls =
        [Call.write u.fd (if priv.bitswap then bitswap buffer buffer.length else buffer)
          buffer.length] := by
  have h1 : ¬ gst_poll_wait priv.fdset_read env.poll < 0 := by omega
  have h2 : ¬ gst_poll_wait priv.fdset_read env.poll = 0 := by omega
  simp [gst_uart_sink_render, hu, hacknak, h1, h2, hcan, hred, hack, hnak, writes, uart_flush,
    Call.isWrite, List.filter]

/-- Witness of C5: the unit `[0x41, 0x42]`, answered by `0x42`. -/
theorem render_unknown_byte_error_witness :
    ∃ r, gst_uart_sink_render (bitswap_non64bit 64) (sink_example false true) [0x41, 0x42]
        ⟨1, true, 1, 0x42, 0⟩ = some r ∧
      r.flow = GstFlowReturn.GST_FLOW_ERROR ∧
      writes r.calls = [Call.write 5 [0x41, 0x42] 2] :=
  render_unknown_byte_error (bitswap_non64bit 64) (sink_example false true) _ [0x41, 0x42]
    ⟨1, true, 1, 0x42, 0⟩ rfl rfl (by decide) rfl rfl (by decide) (by decide)

/-- C6: with ACK/NAK disabled, whatever the line would answer, `render` returns
`GST_FLOW_OK` and its calls are exactly: map, one write of the unit (transformed when the bit
transform is on), the drain, unmap; it neither waits for nor reads a response. -/
theorem render_no_acknak (bitswap : List Byte → Nat → List Byte)
    (priv : GstUartSinkPrivate) (u : uart) (buffer : List Byte) (env : RenderEnv)
    (hu : priv.uart = some u) (hacknak : priv.acknak = false) :
    ∃ r, gst_uart_sink_render bitswap priv buffer env = some r ∧
      r.flow = GstFlowReturn.GST_FLOW_OK ∧
      r.calls =
        [Call.gst_buffer_map,
         Call.write u.fd (if priv.bitswap then bitswap buffer buffer.length else buffer)
           buffer.length,
         Call.tcdrain u.fd, Call.gst_buffer_unmap] ∧
      (writes r.calls).length = 1 ∧
      r.calls.filter Call.isWait = [] ∧ r.calls.filter Call.isRead = [] := by
  simp [gst_uart_sink_render, hu, hacknak, writes, uart_flush, Call.isWrite, Call.isWait,
    Call.isRead, List.filter]

/-- Witness of C6: the unit `[0x41, 0x42]` while the line holds a readable `0x15`. -/
theorem render_no_acknak_witness :
    ∃ r, gst_uart_sink_render (bitswap_non64bit 64) (sink_example false false) [0x41, 0x42]
        ⟨1, true, 1, 0x15, 0⟩ = some r ∧
      r.flow = GstFlowReturn.GST_FLOW_OK ∧
      r.calls = [Call.gst_buffer_map, Call.write 5 [0x41, 0x42] 2, Call.tcdrain 5,
        Call.gst_buffer_unmap] ∧
      (writes r.calls).length = 1 ∧
      r.calls.filter Call.isWait = [] ∧ r.calls.filter Call.isRead = [] :=
  render_no_acknak (bitswap_non64bit 64) (sink_example false false) _ [0x41, 0x42]
    ⟨1, true, 1, 0x15, 0⟩ rfl rfl

/-- Counterexample to C9 as stated: a two-byte unit that is resent after a timeout (two
physical writes) leaves both counters at 0, not at `2 * 2`. -/
theorem render_counters_counterexample :
    ∃ r, gst_uart_sink_render (bitswap_non64bit 64) (sink_example false true) [0x41, 0x42]
        ⟨0, false, 0, 0, 0⟩ = some r ∧
      (writes r.calls).length = 2 ∧
      r.priv.bytes_written = 0 ∧ r.priv.current_pos = 0 ∧
      r.priv.bytes_written ≠
        (sink_example false true).bytes_written + 2 * [(0x41 : Byte), 0x42].length ∧
      r.priv.current_pos ≠
        (sink_example false true).current_pos + 2 * [(0x41 : Byte), 0x42].length :=
  ⟨_, rfl, by decide, rfl, rfl, by decide, by decide⟩

/-- C9 as amended: every `render` on an open link returns; it issues one or two physical
writes and leaves the private data, so the bytes-written and the logical-position counters,
exactly as they were; hence the counters do not decrease. -/
theorem render_counters_unchanged (bitswap : List Byte → Nat → List Byte)
    (priv : GstUartSinkPrivate) (u : uart) (buffer : List Byte) (env : RenderEnv)
    (hu : priv.uart = some u) :
    ∃ r, gst_uart_sink_render bitswap priv buffer env = some r ∧
      r.priv = priv ∧
      r.priv.bytes_written = priv.bytes_written ∧ r.priv.current_pos = priv.current_pos ∧
      priv.bytes_written ≤ r.priv.bytes_written ∧ priv.current_pos ≤ r.priv.current_pos ∧
      1 ≤ (writes r.calls).length ∧ (writes r.calls).length ≤ 2 := by
  unfold gst_uart_sink_render
  simp only [hu]
  split_ifs <;>
    simp [writes, uart_flush, hu, Call.isWrite, List.filter]

/-- Witness of C9 as amended: the resent unit of the counterexample. -/
theorem render_counters_unchanged_witness :
    ∃ r, gst_uart_sink_render (bitswap_non64bit 64) (sink_example false true) [0x41, 0x42]
        ⟨0, false, 0, 0, 0⟩ = some r ∧
      r.priv = sink_example false true ∧
      r.priv.bytes_written = (sink_example false true).bytes_written ∧
      r.priv.current_pos = (sink_example false true).current_pos ∧
      (sink_example false true).bytes_written ≤ r.priv.bytes_written ∧
      (sink_example false true).current_pos ≤ r.priv.current_pos ∧
      1 ≤ (writes r.calls).length ∧ (writes r.calls).length ≤ 2 :=
  render_counters_unchanged (bitswap_non64bit 64) (sink_example false true) _ [0x41, 0x42]
    ⟨0, false, 0, 0, 0⟩ rfl

/-! ## Properties of the receiver's acknowledgment -/

/-- What `gst_uart_src_event` does with a `GST_EVENT_CUSTOM_UPSTREAM` event on an open
link. -/
theorem gst_uart_src_event_custom (base_event : Bool) (priv : GstUartSrcPrivate) (u : uart)
    (count : Nat) (hu : priv.uart = some u) :
    gst_uart_src_event base_event priv count GstEventType.GST_EVENT_CUSTOM_UPSTREAM =
      some ⟨true, (count + 1) % 2 ^ 64,
        if priv.acknak then
          [Call.write u.fd
            [if 0 < priv.nak_probability ∧ (count + 1) % 2 ^ 64 % priv.nak_probability = 0
              then 0x15 else 0x06] 1]
        else []⟩ := by
  by_cases hack : priv.acknak = true
  · simp [gst_uart_src_event, hu, hack, Nat.pos_iff_ne_zero]
  · simp [gst_uart_src_event, hack]

/-- C7: on a "unit consumed" notification (`GST_EVENT_CUSTOM_UPSTREAM`) the static counter is
incremented to `c`; with ACK/NAK disabled no byte is written; with ACK/NAK enabled exactly one
byte is written, `0x15` when the denominator `N` is positive and `c mod N = 0`, and `0x06`
otherwise; in particular with `N = 0` the byte is `0x06`. -/
theorem src_event_response (base_event : Bool) (priv : GstUartSrcPrivate) (u : uart)
    (count : Nat) (hu : priv.uart = some u) :
    gst_uart_src_event base_event priv count GstEventType.GST_EVENT_CUSTOM_UPSTREAM =
      some ⟨true, (count + 1) % 2 ^ 64,
        if priv.acknak then
          [Call.write u.fd
            [if 0 < priv.nak_probability ∧ (count + 1) % 2 ^ 64 % priv.nak_probability = 0
              then 0x15 else 0x06] 1]
        else []⟩ ∧
    (priv.acknak = true → priv.nak_probability = 0 →
      gst_uart_src_event base_event priv count GstEventType.GST_EVENT_CUSTOM_UPSTREAM =
        some ⟨true, (count + 1) % 2 ^ 64, [Call.write u.fd [0x06] 1]⟩) := by
  constructor
  · exact gst_uart_src_event_custom base_event priv u count hu
  · intro hack hzero
    simp [gst_uart_src_event, hu, hack, hzero]

/-- Witness of C7: the counter goes from 5 to 6 with denominator 3 (NAK), and with
denominator 0 (ACK). -/
theorem src_event_response_witness :
    gst_uart_src_event true (src_example true 3) 5 GstEventType.GST_EVENT_CUSTOM_UPSTREAM =
      some ⟨true, 6, [Call.write 7 [0x15] 1]⟩ ∧
    gst_uart_src_event true (src_example true 0) 5 GstEventType.GST_EVENT_CUSTOM_UPSTREAM =
      some ⟨true, 6, [Call.write 7 [0x06] 1]⟩ :=
  ⟨(src_event_response true (src_example true 3) _ 5 rfl).1,
   (src_event_response true (src_example true 0) _ 5 rfl).2 rfl rfl⟩

/-- A run of notifications on an open link with ACK/NAK enabled: the counter advances by one
per notification and each answer is decided on the incremented counter. -/
theorem notifications_eq (priv : GstUartSrcPrivate) (u : uart) (hu : priv.uart = some u)
    (hack : priv.acknak = true) (n : Nat) :
    ∀ count : Nat, count + n < 2 ^ 64 →
      notifications priv n count =
        some (count + n, (List.range n).map (fun j =>
          Call.write u.fd
            [if 0 < priv.nak_probability ∧ (count + j + 1) % priv.nak_probability = 0
              then 0x15 else 0x06] 1)) := by
  induction n with
  | zero => intro count _; rfl
  | succ n ih =>
    intro count hlt
    have hmod : (count + 1) % 2 ^ 64 = count + 1 := Nat.mod_eq_of_lt (by omega)
    have hstep := gst_uart_src_event_custom true priv u count hu
    rw [hmod] at hstep
    have hrest := ih (count + 1) (by omega)
    simp only [notifications, hstep, hrest, hack, if_true]
    rw [List.range_succ_eq_map, List.map_cons, List.map_map]
    have hfun : ((fun j => Call.write u.fd
          [if 0 < priv.nak_probability ∧ (count + j + 1) % priv.nak_probability = 0
            then (0x15 : Byte) else 0x06] 1) ∘ Nat.succ) =
        (fun j => Call.write u.fd
          [if 0 < priv.nak_probability ∧ (count + 1 + j + 1) % priv.nak_probability = 0
            then (0x15 : Byte) else 0x06] 1) := by
      funext j
      have : count + Nat.succ j + 1 = count + 1 + j + 1 := by omega
      simp only [Function.comp, this]
    rw [hfun]
    have harith : count + 1 + n = count + (n + 1) := by omega
    simp [harith]

/-- Counterexample to C8 as stated: from a fresh start with denominator 3 the first six
notifications are answered ACK, NAK, ACK, ACK, NAK, ACK (the counter is 2 at the first
decision), not ACK, ACK, NAK, ACK, ACK, NAK. -/
theorem notifications_counterexample :
    notifications (src_example true 3) 6 count_init =
      some (7, [Call.write 7 [0x06] 1, Call.write 7 [0x15] 1, Call.write 7 [0x06] 1,
        Call.write 7 [0x06] 1, Call.write 7 [0x15] 1, Call.write 7 [0x06] 1]) ∧
    (notifications (src_example true 3) 6 count_init).map Prod.snd ≠
      some [Call.write 7 [0x06] 1, Call.write 7 [0x06] 1, Call.write 7 [0x15] 1,
        Call.write 7 [0x06] 1, Call.write 7 [0x06] 1, Call.write 7 [0x15] 1] := by
  decide

/-- C8 as amended: from a fresh start (static counter 1) the counter is incremented on every
notification before the decision, so the `k`-th notification is decided on the counter value
`k + 1`: with ACK/NAK enabled it is answered NAK exactly when the denominator `N` is positive
and `k + 1` is a multiple of `N`, and ACK otherwise (index `j` of the run is the
notification `k = j + 1`), as long as the counter stays below `2 ^ 64`. -/
theorem notifications_schedule (priv : GstUartSrcPrivate) (u : uart) (n : Nat)
    (hu : priv.uart = some u) (hack : priv.acknak = true) (hn : n + 1 < 2 ^ 64) :
    notifications priv n count_init =
      some (n + 1, (List.range n).map (fun j =>
        Call.write u.fd
          [if 0 < priv.nak_probability ∧ (j + 1 + 1) % priv.nak_probability = 0
            then 0x15 else 0x06] 1)) := by
  have h := notifications_eq priv u hu hack n count_init (by unfold count_init; omega)
  rw [h]
  simp only [count_init, Nat.add_comm 1]

/-- Witness of C8 as amended: denominator 3, six notifications. -/
theorem notifications_schedule_witness :
    notifications (src_example true 3) 6 count_init =
      some (7, [Call.write 7 [0x06] 1, Call.write 7 [0x15] 1, Call.write 7 [0x06] 1,
        Call.write 7 [0x06] 1, Call.write 7 [0x15] 1, Call.write 7 [0x06] 1]) :=
  (notifications_schedule (src_example true 3) _ 6 rfl rfl (by decide)).trans (by decide)

/-! ## Properties of the line configuration -/

/-- The speed `baud_to_speed` gives is `B0` exactly for the rates outside the supported
set. -/
theorem baud_to_speed_eq_B0_iff (baud : Int) :
    baud_to_speed baud = B0 ↔ baud ∉ supported_bauds := by
  unfold baud_to_speed supported_bauds
  simp only [List.mem_cons, List.mem_singleton, List.not_mem_nil, or_false, not_or]
  constructor
  · intro h
    split_ifs at h with h1 h2 h3 h4 h5 h6 h7 h8 h9
    all_goals first
      | exact absurd h (by decide)
      | exact ⟨h1, h2, h3, h4, h5, h6, h7, h8, h9⟩
  · rintro ⟨h1, h2, h3, h4, h5, h6, h7, h8, h9⟩
    simp [h1, h2, h3, h4, h5, h6, h7, h8, h9]

/-- C10: for every `baud` outside the nine supported rates `uart_set_baud_rate` returns -1
with the error "Unsupported baud rate" set, having issued no call to the device (the
operating system state, so the device attributes, is as before) and with the link's `fd`,
`orig` and `current` unchanged; for each of the nine supported rates it leaves no error set,
whatever the device answers, and on a device that answers every call it returns 0. -/
theorem uart_set_baud_rate_unsupported (os : Os) (u : uart) (baud : Int) (options : termios) :
    (baud ∉ supported_bauds →
      uart_set_baud_rate os (some u) baud options =
        Exit.ret ⟨-1, some u,
          some ⟨UART_SETTING_ERROR, UART_SETTING_ERROR_NO_BAUD,
            "Unsupported baud rate " ++ toString baud⟩, os⟩) ∧
    (baud ∈ supported_bauds →
      set_baud_error (uart_set_baud_rate os (some u) baud options) = none ∧
      (u.fd ∈ os.fds → os.faults = [] →
        ∃ r, uart_set_baud_rate os (some u) baud options = Exit.ret r ∧ r.ret = 0 ∧
          r.error = none)) := by
  constructor
  · intro h
    have h0 := (baud_to_speed_eq_B0_iff baud).2 h
    simp [uart_set_baud_rate, h0]
  · intro h
    have h0 : baud_to_speed baud ≠ B0 := fun hb => (baud_to_speed_eq_B0_iff baud).1 hb h
    constructor
    · unfold uart_set_baud_rate
      simp only [h0, if_false]
      split_ifs <;> rfl
    · intro hfd hfaults
      have hvalid : valid_speed (baud_to_speed baud) = true := by
        simp only [supported_bauds, List.mem_cons, List.mem_singleton, List.not_mem_nil,
          or_false] at h
        rcases h with h | h | h | h | h | h | h | h | h <;> subst h <;> decide
      simp [uart_set_baud_rate, h0, tcgetattr, tcsetattr, cfsetspeed, Os.succeeds, Os.step,
        hfd, hfaults, hvalid]

/-- Witness of C10: 1200 baud is refused and leaves the terminal and the link alone; 115200
baud sets no error and returns 0 on `os_example`. -/
theorem uart_set_baud_rate_unsupported_witness :
    ((1200 : Int) ∉ supported_bauds ∧ (115200 : Int) ∈ supported_bauds) ∧
    uart_set_baud_rate os_example (some uart_example) 1200 os_example.attrs =
      Exit.ret ⟨-1, some uart_example,
        some ⟨UART_SETTING_ERROR, UART_SETTING_ERROR_NO_BAUD,
          "Unsupported baud rate " ++ toString (1200 : Int)⟩, os_example⟩ ∧
    set_baud_error
      (uart_set_baud_rate os_example (some uart_example) 115200 os_example.attrs) = none ∧
    (∃ r, uart_set_baud_rate os_example (some uart_example) 115200 os_example.attrs =
        Exit.ret r ∧ r.ret = 0 ∧ r.error = none) :=
  ⟨⟨by decide, by decide⟩,
   (uart_set_baud_rate_unsupported os_example uart_example 1200 os_example.attrs).1 (by decide),
   ((uart_set_baud_rate_unsupported os_example uart_example 115200 os_example.attrs).2
      (by decide)).1,
   ((uart_set_baud_rate_unsupported os_example uart_example 115200 os_example.attrs).2
      (by decide)).2 (by decide) rfl⟩

/-! ## Properties of the line configuration, continued -/

/-- On a device that answers, `tcgetattr` returns 0 and the device's attributes. -/
theorem tcgetattr_ok (os : Os) (fd : Int) (t : termios) (hfd : fd ∈ os.fds)
    (hfaults : os.faults = []) :
    tcgetattr os fd t = (0, os.attrs, os.step (Call.tcgetattr fd)) := by
  simp [tcgetattr, Os.succeeds, hfd, hfaults]

/-- On a device that answers, `tcsetattr` returns 0 and the device stores the attributes. -/
theorem tcsetattr_ok (os : Os) (fd : Int) (a : Nat) (t : termios) (hfd : fd ∈ os.fds)
    (hfaults : os.faults = []) :
    tcsetattr os fd a t = (0, { os.step (Call.tcsetattr fd a t) with attrs := t }) := by
  simp [tcsetattr, Os.succeeds, hfd, hfaults]

/-- Every supported rate has a speed `cfsetspeed` accepts. -/
theorem valid_speed_of_supported (r : Int) (hr : r ∈ supported_bauds) :
    valid_speed (baud_to_speed r) = true := by
  simp only [supported_bauds, List.mem_cons, List.mem_singleton, List.not_mem_nil,
    or_false] at hr
  rcases hr with h | h | h | h | h | h | h | h | h <;> subst h <;> decide

/-- On a device that answers, `uart_set_baud_rate` with a supported rate returns 0: it reads
the attributes, stores them with both speeds set, reads them back into `current`. -/
theorem uart_set_baud_rate_ok (os : Os) (u : uart) (r : Int) (options : termios)
    (hr : r ∈ supported_bauds) (hfd : u.fd ∈ os.fds) (hfaults : os.faults = []) :
    uart_set_baud_rate os (some u) r options =
      Exit.ret ⟨0,
        some { u with current :=
          { os.attrs with c_ispeed := baud_to_speed r, c_ospeed := baud_to_speed r } },
        none,
        { attrs := { os.attrs with c_ispeed := baud_to_speed r, c_ospeed := baud_to_speed r },
          fds := os.fds, faults := [],
          calls := os.calls ++ [Call.tcgetattr u.fd,
            Call.tcsetattr u.fd TCSAFLUSH
              { os.attrs with c_ispeed := baud_to_speed r, c_ospeed := baud_to_speed r },
            Call.tcgetattr u.fd] }⟩ := by
  have h0 : baud_to_speed r ≠ B0 := fun hb => (baud_to_speed_eq_B0_iff r).1 hb hr
  have hvalid := valid_speed_of_supported r hr
  simp [uart_set_baud_rate, h0, tcgetattr, tcsetattr, cfsetspeed, Os.succeeds, Os.step,
    hfd, hfaults, hvalid]

/-- C11: for each of the nine supported rates `r`, on a device that answers and stores the
attributes it is given, `uart_set_baud_rate(r)` returns 0 with no error, a following
`uart_get_baud_rate` returns `r`, and the link's `current` equals the device's attributes;
`speed_to_baud (baud_to_speed r) = r`, and `baud_to_speed` sends distinct supported rates to
distinct speeds other than `B0`. -/
theorem baud_rate_round_trip (os : Os) (u : uart) (r : Int) (options options2 : termios)
    (hr : r ∈ supported_bauds) (hfd : u.fd ∈ os.fds) (hfaults : os.faults = []) :
    ∃ res u1, uart_set_baud_rate os (some u) r options = Exit.ret res ∧
      res.ret = 0 ∧ res.error = none ∧ res.uart = some u1 ∧
      (uart_get_baud_rate res.os res.uart options2).1 = r ∧
      u1.current = res.os.attrs ∧
      speed_to_baud (baud_to_speed r) = r ∧ baud_to_speed r ≠ B0 ∧
      ∀ r2 ∈ supported_bauds, baud_to_speed r2 = baud_to_speed r → r2 = r := by
  have hround : speed_to_baud (baud_to_speed r) = r := by
    simp only [supported_bauds, List.mem_cons, List.mem_singleton, List.not_mem_nil,
      or_false] at hr
    rcases hr with h | h | h | h | h | h | h | h | h <;> subst h <;> decide
  have h0 : baud_to_speed r ≠ B0 := fun hb => (baud_to_speed_eq_B0_iff r).1 hb hr
  refine ⟨_, _, uart_set_baud_rate_ok os u r options hr hfd hfaults, rfl, rfl, rfl, ?_, rfl,
    hround, h0, ?_⟩
  · simp [uart_get_baud_rate, tcgetattr, Os.succeeds, hfd, cfgetispeed, hround]
  · intro r2 hr2 heq
    simp only [supported_bauds, List.mem_cons, List.mem_singleton, List.not_mem_nil,
      or_false] at hr hr2
    rcases hr with h | h | h | h | h | h | h | h | h <;> subst h <;>
      rcases hr2 with h | h | h | h | h | h | h | h | h <;> subst h <;>
      first
        | rfl
        | exact absurd heq (by decide)

/-- Witness of C11: 115200 baud on `os_example`. -/
theorem baud_rate_round_trip_witness :
    ∃ res u1, uart_set_baud_rate os_example (some uart_example) 115200 os_example.attrs =
        Exit.ret res ∧
      res.ret = 0 ∧ res.error = none ∧ res.uart = some u1 ∧
      (uart_get_baud_rate res.os res.uart os_example.attrs).1 = 115200 ∧
      u1.current = res.os.attrs ∧
      speed_to_baud (baud_to_speed 115200) = 115200 ∧ baud_to_speed 115200 ≠ B0 ∧
      ∀ r2 ∈ supported_bauds, baud_to_speed r2 = baud_to_speed 115200 → r2 = 115200 :=
  baud_rate_round_trip os_example uart_example 115200 os_example.attrs os_example.attrs
    (by decide) (by decide) rfl


/-- Bit `k` of `x &= ~mask` on a 32-bit flag word, for a 32-bit mask. -/
theorem testBit_clear_bits (x mask k : Nat) (hmask : mask < 2 ^ 32) :
    (clear_bits x mask).testBit k =
      (x.testBit k && (decide (k < 32) && !(mask.testBit k))) := by
  have h32 : (0xFFFFFFFF : Nat) = 2 ^ 32 - 1 := by norm_num
  unfold clear_bits
  rw [h32, Nat.testBit_and, Nat.testBit_xor, Nat.testBit_two_pow_sub_one]
  by_cases hk : k < 32
  · simp [hk]
  · have hle : 2 ^ 32 ≤ 2 ^ k := Nat.pow_le_pow_right (by decide) (by omega)
    have hm : mask.testBit k = false := Nat.testBit_eq_false_of_lt (by omega)
    simp [hk, hm]

/-- Testing a single flag bit with `&` is testing that bit. -/
theorem and_two_pow_ne_zero_iff (x n : Nat) : x &&& 2 ^ n ≠ 0 ↔ x.testBit n = true := by
  constructor
  · intro h
    by_contra hb
    apply h
    apply Nat.zero_of_testBit_eq_false
    intro i
    rw [Nat.testBit_and, Nat.testBit_two_pow]
    by_cases hi : n = i
    · subst hi
      simp [hb]
    · simp [hi]
  · intro hb h0
    have : (x &&& 2 ^ n).testBit n = true := by
      rw [Nat.testBit_and, Nat.testBit_two_pow_self, hb]
      rfl
    rw [h0] at this
    simp at this


/-- The parity bits of `c_cflag` after each of the three rewrites of `uart_set_parity`. -/
theorem parity_bits (c : Nat) :
    ((clear_bits (c ||| PARENB) PARODD).testBit 8 = true ∧
      (clear_bits (c ||| PARENB) PARODD).testBit 9 = false) ∧
    (((c ||| PARENB) ||| PARODD).testBit 8 = true ∧
      ((c ||| PARENB) ||| PARODD).testBit 9 = true) ∧
    (clear_bits c PARENB).testBit 8 = false := by
  have hEm : PARENB < 2 ^ 32 := by decide
  have hOm : PARODD < 2 ^ 32 := by decide
  have e8 : PARENB.testBit 8 = true := by decide
  have e9 : PARENB.testBit 9 = false := by decide
  have o8 : PARODD.testBit 8 = false := by decide
  have o9 : PARODD.testBit 9 = true := by decide
  refine ⟨⟨?_, ?_⟩, ⟨?_, ?_⟩, ?_⟩
  · rw [testBit_clear_bits _ _ _ hOm, Nat.testBit_or, e8, o8]
    simp
  · rw [testBit_clear_bits _ _ _ hOm, o9]
    simp
  · rw [Nat.testBit_or, Nat.testBit_or, e8]
    simp
  · rw [Nat.testBit_or, o9]
    simp
  · rw [testBit_clear_bits _ _ _ hEm, e8]
    simp

/-- On a device that answers, `uart_set_parity` returns 0 and the device holds its former
attributes with the parity bits of `c_cflag` rewritten. -/
theorem uart_set_parity_ok (os : Os) (u : uart) (p : UartParity) (options : termios)
    (hfd : u.fd ∈ os.fds) (hfaults : os.faults = []) :
    ∃ c, uart_set_parity os (some u) p options =
        (0, { attrs := { os.attrs with c_cflag := c }, fds := os.fds, faults := [],
              calls := os.calls ++ [Call.tcgetattr u.fd,
                Call.tcsetattr u.fd TCSAFLUSH { os.attrs with c_cflag := c }] }) ∧
      c = (match p with
        | UartParity.UART_PARITY_EVEN => clear_bits (os.attrs.c_cflag ||| PARENB) PARODD
        | UartParity.UART_PARITY_ODD => (os.attrs.c_cflag ||| PARENB) ||| PARODD
        | UartParity.UART_PARITY_NO => clear_bits os.attrs.c_cflag PARENB) := by
  cases p <;>
    simp [uart_set_parity, tcgetattr, tcsetattr, Os.succeeds, Os.step, hfd, hfaults]

/-- C20: for every parity `p` and every prior attribute set of a device that answers and
stores the attributes it is given, `uart_set_parity(p)` returns 0 and a following
`uart_get_parity` returns `p`; the set changes no bit of `c_cflag` other than `PARENB` and
`PARODD` and no other attribute, the speed included. -/
theorem parity_round_trip (os : Os) (u : uart) (p : UartParity) (options options2 : termios)
    (hfd : u.fd ∈ os.fds) (hfaults : os.faults = []) (hc : os.attrs.c_cflag < 2 ^ 32) :
    (uart_set_parity os (some u) p options).1 = 0 ∧
    (uart_get_parity (uart_set_parity os (some u) p options).2 (some u) options2).1 = some p ∧
    (∀ k, PARENB.testBit k = false → PARODD.testBit k = false →
      (uart_set_parity os (some u) p options).2.attrs.c_cflag.testBit k =
        os.attrs.c_cflag.testBit k) ∧
    (uart_set_parity os (some u) p options).2.attrs =
      { os.attrs with
        c_cflag := (uart_set_parity os (some u) p options).2.attrs.c_cflag } ∧
    cfgetispeed (uart_set_parity os (some u) p options).2.attrs = cfgetispeed os.attrs := by
  obtain ⟨c, hset, hcdef⟩ := uart_set_parity_ok os u p options hfd hfaults
  have hE : PARENB = 2 ^ 8 := by decide
  have hO : PARODD = 2 ^ 9 := by decide
  have hEm : PARENB < 2 ^ 32 := by decide
  have hOm : PARODD < 2 ^ 32 := by decide
  have h1 : (uart_set_parity os (some u) p options).1 = 0 := by rw [hset]
  have hattrs : (uart_set_parity os (some u) p options).2.attrs =
      { os.attrs with c_cflag := c } := by rw [hset]
  have hfds : (uart_set_parity os (some u) p options).2.fds = os.fds := by rw [hset]
  have hfl : (uart_set_parity os (some u) p options).2.faults = [] := by rw [hset]
  have hget : ∀ os2 : Os, u.fd ∈ os2.fds → os2.faults = [] →
      (uart_get_parity os2 (some u) options2).1 =
        some (if os2.attrs.c_cflag.testBit 8 = true then
          (if os2.attrs.c_cflag.testBit 9 = true then UartParity.UART_PARITY_ODD
            else UartParity.UART_PARITY_EVEN)
          else UartParity.UART_PARITY_NO) := by
    intro os2 h2fd h2faults
    have h8 := and_two_pow_ne_zero_iff os2.attrs.c_cflag 8
    have h9 := and_two_pow_ne_zero_iff os2.attrs.c_cflag 9
    rw [← hE] at h8
    rw [← hO] at h9
    simp only [uart_get_parity, tcgetattr_ok os2 u.fd options2 h2fd h2faults]
    by_cases b8 : os2.attrs.c_cflag.testBit 8 = true
    · by_cases b9 : os2.attrs.c_cflag.testBit 9 = true
      · simp [h8.2 b8, h9.2 b9, b8, b9]
      · have n9 : ¬ (os2.attrs.c_cflag &&& PARODD ≠ 0) := fun h => b9 (h9.1 h)
        simp only [ne_eq, not_not] at n9
        simp [h8.2 b8, n9, b8, b9]
    · have n8 : ¬ (os2.attrs.c_cflag &&& PARENB ≠ 0) := fun h => b8 (h8.1 h)
      simp only [ne_eq, not_not] at n8
      simp [n8, b8]
  refine ⟨h1, ?_, ?_, ?_, ?_⟩
  · rw [hget _ (hfds ▸ hfd) hfl, hattrs]
    subst hcdef
    have hb := parity_bits os.attrs.c_cflag
    cases p <;> simp [hb.1.1, hb.1.2, hb.2.1.1, hb.2.1.2, hb.2.2]
  · intro k hkE hkO
    rw [hattrs]
    subst hcdef
    have hk32 : ¬ k < 32 → os.attrs.c_cflag.testBit k = false := by
      intro hk
      have hle : 2 ^ 32 ≤ 2 ^ k := Nat.pow_le_pow_right (by decide) (by omega)
      exact Nat.testBit_eq_false_of_lt (by omega)
    by_cases hk : k < 32
    · cases p <;>
        simp [testBit_clear_bits _ _ _ hEm, testBit_clear_bits _ _ _ hOm, hkE, hkO, hk]
    · cases p <;>
        simp [testBit_clear_bits _ _ _ hEm, testBit_clear_bits _ _ _ hOm, hkE, hkO,
          hk32 hk]
  · rw [hattrs]
  · rw [hattrs]
    rfl

/-- Witness of C20: odd parity on `os_example`. -/
theorem parity_round_trip_witness :
    (uart_set_parity os_example (some uart_example) UartParity.UART_PARITY_ODD
      os_example.attrs).1 = 0 ∧
    (uart_get_parity (uart_set_parity os_example (some uart_example)
      UartParity.UART_PARITY_ODD os_example.attrs).2 (some uart_example)
      os_example.attrs).1 = some UartParity.UART_PARITY_ODD :=
  have h := parity_round_trip os_example uart_example UartParity.UART_PARITY_ODD
    os_example.attrs os_example.attrs (by decide) rfl (by decide)
  ⟨h.1, h.2.1⟩

/-! ## Restore on close -/

/-- On a device that answers, `uart_set_stop_bit_1` and `uart_set_stop_bit_2` leave the
descriptors and the fault script as they were. -/
theorem uart_set_stop_bit_ok (os : Os) (u : uart) (options : termios)
    (hfd : u.fd ∈ os.fds) (hfaults : os.faults = []) :
    ((uart_set_stop_bit_1 os (some u) options).2.fds = os.fds ∧
      (uart_set_stop_bit_1 os (some u) options).2.faults = []) ∧
    ((uart_set_stop_bit_2 os (some u) options).2.fds = os.fds ∧
      (uart_set_stop_bit_2 os (some u) options).2.faults = []) := by
  simp [uart_set_stop_bit_1, uart_set_stop_bit_2, tcgetattr, tcsetattr, Os.succeeds, Os.step,
    hfd, hfaults]

/-- On a device that answers, every sequence of reconfigurations returns, and keeps the
link's descriptor and `orig`, the descriptors of the device and the empty fault script. -/
theorem reconfigure_ok (options : termios) (ops : List Reconfig) :
    ∀ (os : Os) (u : uart), u.fd ∈ os.fds → os.faults = [] →
      ∃ os1 u1, reconfigure options os u ops = Exit.ret (os1, u1) ∧
        u1.fd = u.fd ∧ u1.orig = u.orig ∧ os1.fds = os.fds ∧ os1.faults = [] := by
  induction ops with
  | nil => intro os u _ hfaults; exact ⟨os, u, rfl, rfl, rfl, rfl, hfaults⟩
  | cons op rest ih =>
    intro os u hfd hfaults
    cases op with
    | baud_rate baud =>
      by_cases hb : baud ∈ supported_bauds
      · have hset := uart_set_baud_rate_ok os u baud options hb hfd hfaults
        obtain ⟨os1, u1, hrun, h1, h2, h3, h4⟩ :=
          ih _ { u with current :=
              { os.attrs with c_ispeed := baud_to_speed baud, c_ospeed := baud_to_speed baud } }
            (show u.fd ∈ (Os.mk _ os.fds [] _).fds from hfd) rfl
        refine ⟨os1, u1, ?_, h1, h2, h3, h4⟩
        simp only [reconfigure, hset, Option.getD_some]
        exact hrun
      · have h0 := (baud_to_speed_eq_B0_iff baud).2 hb
        obtain ⟨os1, u1, hrun, h1, h2, h3, h4⟩ := ih os u hfd hfaults
        refine ⟨os1, u1, ?_, h1, h2, h3, h4⟩
        simp only [reconfigure, uart_set_baud_rate, h0, if_true, Option.getD_some]
        exact hrun
    | parity p =>
      obtain ⟨c, hset, _⟩ := uart_set_parity_ok os u p options hfd hfaults
      have hfds : (uart_set_parity os (some u) p options).2.fds = os.fds := by rw [hset]
      have hfl : (uart_set_parity os (some u) p options).2.faults = [] := by rw [hset]
      obtain ⟨os1, u1, hrun, h1, h2, h3, h4⟩ := ih _ u (hfds ▸ hfd) hfl
      exact ⟨os1, u1, by simp only [reconfigure]; exact hrun, h1, h2, h3.trans hfds, h4⟩
    | stop_bit_1 =>
      obtain ⟨⟨hfds, hfl⟩, _⟩ := uart_set_stop_bit_ok os u options hfd hfaults
      obtain ⟨os1, u1, hrun, h1, h2, h3, h4⟩ := ih _ u (hfds ▸ hfd) hfl
      exact ⟨os1, u1, by simp only [reconfigure]; exact hrun, h1, h2, h3.trans hfds, h4⟩
    | stop_bit_2 =>
      obtain ⟨_, hfds, hfl⟩ := uart_set_stop_bit_ok os u options hfd hfaults
      obtain ⟨os1, u1, hrun, h1, h2, h3, h4⟩ := ih _ u (hfds ▸ hfd) hfl
      exact ⟨os1, u1, by simp only [reconfigure]; exact hrun, h1, h2, h3.trans hfds, h4⟩

/-- On a system whose calls succeed, `uart_open` returns a link on a fresh descriptor with
`orig` and `current` the attributes of the device. -/
theorem uart_open_ok (os : Os) (name : String) (flags : Nat) (fresh : uart)
    (hfaults : os.faults = []) :
    uart_open os name flags fresh =
      (some ⟨os.fresh_fd, os.attrs, os.attrs⟩,
        { attrs := os.attrs, fds := os.fresh_fd :: os.fds, faults := [],
          calls := os.calls ++ [Call.g_open name (flags ||| O_NOCTTY ||| O_CLOEXEC),
            Call.tcflush os.fresh_fd TCIOFLUSH, Call.tcgetattr os.fresh_fd] }) := by
  simp [uart_open, g_open, tcflush, tcgetattr, Os.succeeds, Os.step, hfaults]

/-- On a system whose calls succeed, `uart_open_raw` returns a link on a fresh descriptor
whose `orig` is the attributes the device had before raw mode was applied. -/
theorem uart_open_raw_ok (os : Os) (name : String) (flags : Nat) (fresh : uart)
    (hfaults : os.faults = []) :
    uart_open_raw os name flags fresh =
      (some ⟨os.fresh_fd, os.attrs, cfmakeraw { os.attrs with c_iflag := 0, c_oflag := 0 }⟩,
        { attrs := cfmakeraw { os.attrs with c_iflag := 0, c_oflag := 0 },
          fds := os.fresh_fd :: os.fds, faults := [],
          calls := os.calls ++ [Call.g_open name (flags ||| O_NOCTTY ||| O_CLOEXEC),
            Call.tcflush os.fresh_fd TCIOFLUSH, Call.tcgetattr os.fresh_fd,
            Call.tcsetattr os.fresh_fd TCSAFLUSH
              (cfmakeraw { os.attrs with c_iflag := 0, c_oflag := 0 }),
            Call.tcgetattr os.fresh_fd] }) := by
  simp [uart_open_raw, uart_open_ok os name flags fresh hfaults, tcsetattr, tcgetattr,
    Os.succeeds, Os.step]

/-- On a device that answers, `uart_close` stores the link's `orig`, then releases the
descriptor and frees the link. -/
theorem uart_close_ok (os : Os) (u : uart) (hfd : u.fd ∈ os.fds) (hfaults : os.faults = []) :
    uart_close os (some u) =
      { attrs := u.orig, fds := os.fds.filter (fun d => d ≠ u.fd), faults := [],
        calls := os.calls ++ [Call.tcsetattr u.fd TCSAFLUSH u.orig, Call.g_close u.fd,
          Call.g_free] } := by
  simp [uart_close, tcsetattr, g_close, Os.succeeds, Os.step, hfd, hfaults]

/-- C12: on a system whose calls succeed, a link created by `uart_open` (`raw = false`) or
`uart_open_raw` (`raw = true`) has `orig` equal to the attributes the device had at open,
before raw mode; after any finite sequence of `uart_set_baud_rate`, `uart_set_parity`,
`uart_set_stop_bit_1` and `uart_set_stop_bit_2` calls `orig` is still equal to them, and
`uart_close` stores exactly those attributes in the device, then releases the descriptor and
frees the link: the device attributes after close are those found at open. -/
theorem orig_restored_on_close (os : Os) (name : String) (flags : Nat) (fresh : uart)
    (raw : Bool) (ops : List Reconfig) (options : termios) (hfaults : os.faults = []) :
    ∃ u0 os0 u1 os1,
      (if raw then uart_open_raw os name flags fresh else uart_open os name flags fresh) =
        (some u0, os0) ∧
      u0.orig = os.attrs ∧
      reconfigure options os0 u0 ops = Exit.ret (os1, u1) ∧
      u1.orig = os.attrs ∧ u1.fd = u0.fd ∧
      (uart_close os1 (some u1)).attrs = os.attrs ∧
      (uart_close os1 (some u1)).calls =
        os1.calls ++ [Call.tcsetattr u0.fd TCSAFLUSH os.attrs, Call.g_close u0.fd,
          Call.g_free] ∧
      u0.fd ∉ (uart_close os1 (some u1)).fds := by
  have hopen : ∃ u0 os0,
      (if raw then uart_open_raw os name flags fresh else uart_open os name flags fresh) =
        (some u0, os0) ∧
      u0.orig = os.attrs ∧ u0.fd ∈ os0.fds ∧ os0.faults = [] := by
    cases raw
    · exact ⟨_, _, by simpa using uart_open_ok os name flags fresh hfaults, rfl,
        List.mem_cons_self _ _, rfl⟩
    · exact ⟨_, _, by simpa using uart_open_raw_ok os name flags fresh hfaults, rfl,
        List.mem_cons_self _ _, rfl⟩
  obtain ⟨u0, os0, ho, horig, hfd0, hfl0⟩ := hopen
  obtain ⟨os1, u1, hrun, hfd1, horig1, hfds1, hfl1⟩ := reconfigure_ok options ops os0 u0 hfd0 hfl0
  have hmem : u1.fd ∈ os1.fds := by rw [hfd1, hfds1]; exact hfd0
  have hclose := uart_close_ok os1 u1 hmem hfl1
  refine ⟨u0, os0, u1, os1, ho, horig, hrun, horig1.trans horig, hfd1, ?_, ?_, ?_⟩
  · rw [hclose]
    exact horig1.trans horig
  · rw [hclose, hfd1, horig1, horig]
  · rw [hclose, hfd1]
    simp

/-- Witness of C12: a raw open on a terminal with no descriptor yet, then four
reconfigurations, one of them refused. -/
theorem orig_restored_on_close_witness :
    ∃ u0 os0 u1 os1,
      (if true then
          uart_open_raw { os_example with fds := [] } "/dev/ttyS0" O_RDWR uart_example
        else uart_open { os_example with fds := [] } "/dev/ttyS0" O_RDWR uart_example) =
        (some u0, os0) ∧
      u0.orig = os_example.attrs ∧
      reconfigure os_example.attrs os0 u0
        [Reconfig.baud_rate 115200, Reconfig.parity UartParity.UART_PARITY_ODD,
          Reconfig.stop_bit_2, Reconfig.baud_rate 1200] = Exit.ret (os1, u1) ∧
      u1.orig = os_example.attrs ∧ u1.fd = u0.fd ∧
      (uart_close os1 (some u1)).attrs = os_example.attrs ∧
      (uart_close os1 (some u1)).calls =
        os1.calls ++ [Call.tcsetattr u0.fd TCSAFLUSH os_example.attrs, Call.g_close u0.fd,
          Call.g_free] ∧
      u0.fd ∉ (uart_close os1 (some u1)).fds :=
  orig_restored_on_close { os_example with fds := [] } "/dev/ttyS0" O_RDWR uart_example true
    [Reconfig.baud_rate 115200, Reconfig.parity UartParity.UART_PARITY_ODD,
      Reconfig.stop_bit_2, Reconfig.baud_rate 1200] os_example.attrs rfl

/-! ## Properties of the receiver's transfer and of cancellation -/

/-- Whatever the line answers, the first write of a `render` on an open link carries the
unit, transformed when the bit transform is on, and its length. -/
theorem render_first_write (bitswap : List Byte → Nat → List Byte)
    (priv : GstUartSinkPrivate) (u : uart) (buffer : List Byte) (env : RenderEnv)
    (hu : priv.uart = some u) :
    ∃ r, gst_uart_sink_render bitswap priv buffer env = some r ∧
      (writes r.calls).head? =
        some (Call.write u.fd (if priv.bitswap then bitswap buffer buffer.length else buffer)
          buffer.length) := by
  unfold gst_uart_sink_render
  simp only [hu]
  split_ifs <;> simp [writes, uart_flush, hu, Call.isWrite, List.filter]

/-- A `fill` whose wait is not cancelled, on a readable line whose read returns `n` bytes
that fit the buffer: the memory holds the bytes read, transformed over the whole buffer when
the bit transform is on, the size of the buffer is `n`, and the calls are the wait, the
readability test, map, read, unmap and the resize. -/
theorem fill_reads (bitswap : List Byte → Nat → List Byte) (priv : GstUartSrcPrivate)
    (u : uart) (buffer rx : List Byte) (poll : Int) (n : Nat)
    (hu : priv.uart = some u) (hpoll : 0 ≤ gst_poll_wait priv.fdset_read poll)
    (hn : n ≤ rx.length) :
    ∃ f, gst_uart_src_fill bitswap priv buffer ⟨poll, true, n, rx⟩ = some f ∧
      f.flow = GstFlowReturn.GST_FLOW_OK ∧ f.size = n ∧
      f.data = (if priv.bitswap then
          bitswap (rx.take n ++ buffer.drop n) buffer.length
        else rx.take n ++ buffer.drop n) ∧
      f.calls = [Call.gst_poll_wait GST_CLOCK_TIME_NONE, Call.gst_poll_fd_can_read u.fd,
        Call.gst_buffer_map, Call.read u.fd buffer.length, Call.gst_buffer_unmap,
        Call.gst_buffer_set_size n] := by
  have hnot : ¬ gst_poll_wait priv.fdset_read poll < 0 := by omega
  have hlen : (rx.take n).length = n := by simp [hn]
  by_cases h0 : n = 0
  · subst h0
    simp [gst_uart_src_fill, hu, hnot, gst_buffer_set_size]
  · have hpos : (0 : Int) < (n : Int) := by omega
    simp [gst_uart_src_fill, hu, hnot, gst_buffer_set_size, hpos, hn]

/-- C13: a sender with the bit transform on writes the per-byte bit reversal of the unit; a
receiver with the bit transform on that reads the first `n` of those bytes into a buffer of
at least `n` bytes delivers a unit of length `n` holding the first `n` bytes of the original
unit (the whole unit when `n` is its length); with the transform off at both ends the bytes
written are the unit and the bytes delivered are the bytes read.  The `bitswap` of both
elements is `bitswap_non64bit` with an `unsigned long` of at least 32 bits. -/
theorem bitswap_end_to_end (w : Nat) (hw : 32 ≤ w) (spriv : GstUartSinkPrivate) (su : uart)
    (rpriv : GstUartSrcPrivate) (ru : uart) (unit buffer : List Byte) (senv : RenderEnv)
    (poll : Int) (n : Nat) (swap : Bool)
    (hsu : spriv.uart = some su) (hru : rpriv.uart = some ru)
    (hs : spriv.bitswap = swap) (hr : rpriv.bitswap = swap)
    (hpoll : 0 ≤ gst_poll_wait rpriv.fdset_read poll)
    (hn : n ≤ unit.length) (hbuf : n ≤ buffer.length) :
    ∃ sent r f,
      gst_uart_sink_render (bitswap_non64bit w) spriv unit senv = some r ∧
      (writes r.calls).head? = some (Call.write su.fd sent unit.length) ∧
      sent = (if swap then unit.map (bitswap_byte w) else unit) ∧
      (swap = true → ∀ i k, i < unit.length → k < 8 →
        (sent.getD i 0).val.testBit k = (unit.getD i 0).val.testBit (7 - k)) ∧
      gst_uart_src_fill (bitswap_non64bit w) rpriv buffer ⟨poll, true, n, sent⟩ = some f ∧
      f.flow = GstFlowReturn.GST_FLOW_OK ∧
      f.size = n ∧ f.unit.length = n ∧ f.unit = unit.take n := by
  have hw24 : 24 ≤ w := by omega
  obtain ⟨r, hrender, hfirst⟩ :=
    render_first_write (bitswap_non64bit w) spriv su unit senv hsu
  have hsent : (if spriv.bitswap then bitswap_non64bit w unit unit.length else unit) =
      (if swap then unit.map (bitswap_byte w) else unit) := by
    rw [hs, bitswap_non64bit_whole]
  rw [hsent] at hfirst
  have hsentlen : (if swap then unit.map (bitswap_byte w) else unit).length = unit.length := by
    cases swap <;> simp
  obtain ⟨f, hfill, hflow, hsize, hdata, _⟩ :=
    fill_reads (bitswap_non64bit w) rpriv ru buffer
      (if swap then unit.map (bitswap_byte w) else unit) poll n hru hpoll (by omega)
  have hunit : f.unit = unit.take n := by
    unfold Filled.unit
    rw [hsize, hdata, hr]
    cases swap
    · simp only [Bool.false_eq_true, if_false]
      have hlt : (unit.take n).length = n := by simp [hn]
      exact List.take_left' hlt
    · simp only [if_true]
      have hl : (List.take n (unit.map (bitswap_byte w)) ++ buffer.drop n).length =
          buffer.length := by
        simp [hn]
        omega
      have hwhole := bitswap_non64bit_whole w
        (List.take n (unit.map (bitswap_byte w)) ++ buffer.drop n)
      rw [hl] at hwhole
      have hid : (bitswap_byte w ∘ bitswap_byte w) = id := by
        funext b
        exact bitswap_byte_twice w hw24 b
      rw [hwhole, List.map_append, List.map_take, List.map_map, hid, List.map_id]
      have hlt : (unit.take n).length = n := by simp [hn]
      exact List.take_left' hlt
  refine ⟨_, r, f, hrender, hfirst, rfl, ?_, hfill, hflow, hsize, ?_, hunit⟩
  · intro hon i k hi hk
    subst hon
    simp only [if_true]
    have hget : (unit.map (bitswap_byte w)).getD i 0 = bitswap_byte w (unit.getD i 0) := by
      simp [List.getD_eq_getElem?_getD, List.getElem?_eq_getElem hi]
    rw [hget, bitswap_byte_val w hw24]
    exact bitswap_exact_testBit (unit.getD i 0) ⟨k, hk⟩
  · rw [hunit]
    simp [hn]

/-- Witness of C13: the unit `[0x01, 0x02]` sent with the transform on goes over the line as
`[0x80, 0x40]` and is delivered as `[0x01, 0x02]` from a four-byte buffer. -/
theorem bitswap_end_to_end_witness :
    ∃ sent r f,
      gst_uart_sink_render (bitswap_non64bit 64) (sink_example true false) [0x01, 0x02]
        ⟨0, false, 0, 0, 0⟩ = some r ∧
      (writes r.calls).head? = some (Call.write 5 sent 2) ∧
      sent = [0x80, 0x40] ∧
      gst_uart_src_fill (bitswap_non64bit 64) src_bitswap_example [0, 0, 0, 0]
        ⟨1, true, ((2 : Nat) : Int), sent⟩ = some f ∧
      f.size = 2 ∧ f.unit = [0x01, 0x02] := by
  obtain ⟨sent, r, f, h1, h2, h3, _, h5, _, h7, _, h9⟩ :=
    bitswap_end_to_end 64 (by decide) (sink_example true false) _ src_bitswap_example _
      [0x01, 0x02] [0, 0, 0, 0] ⟨0, false, 0, 0, 0⟩ 1 2 true rfl rfl rfl rfl (by decide)
      (by decide) (by decide)
  exact ⟨sent, r, f, h1, h2, h3.trans (by decide), h5, h7, h9⟩

/-- C14: after `unlock` a `fill` returns `GST_FLOW_FLUSHING` having only waited: no read, no
map, the buffer as it was.  After a following `unlock_stop` both sets are no longer flushing;
when they were not flushing before, the pair `unlock`, `unlock_stop` leaves the private data
as it was; and the next `fill` on a readable line waits, reads and returns
`GST_FLOW_OK` with the bytes read. -/
theorem fill_cancelled_then_rearmed (bitswap : List Byte → Nat → List Byte)
    (priv : GstUartSrcPrivate) (u : uart) (sr sw : GstPoll) (buffer rx : List Byte)
    (env : FillEnv) (poll : Int) (n : Nat)
    (hu : priv.uart = some u) (hsr : priv.fdset_read = some sr)
    (hsw : priv.fdset_write = some sw) (hpoll : 0 < poll) (hn : n ≤ rx.length) :
    gst_uart_src_fill bitswap (gst_uart_src_unlock priv).2 buffer env =
      some ⟨GstFlowReturn.GST_FLOW_FLUSHING, (gst_uart_src_unlock priv).2, buffer,
        buffer.length, [Call.gst_poll_wait GST_CLOCK_TIME_NONE]⟩ ∧
    ((gst_uart_src_unlock_stop (gst_uart_src_unlock priv).2).2.fdset_read = some ⟨false⟩ ∧
      (gst_uart_src_unlock_stop (gst_uart_src_unlock priv).2).2.fdset_write = some ⟨false⟩) ∧
    (sr.flushing = false → sw.flushing = false →
      (gst_uart_src_unlock_stop (gst_uart_src_unlock priv).2).2 = priv) ∧
    ∃ f, gst_uart_src_fill bitswap (gst_uart_src_unlock_stop (gst_uart_src_unlock priv).2).2
        buffer ⟨poll, true, n, rx⟩ = some f ∧
      f.flow = GstFlowReturn.GST_FLOW_OK ∧ f.size = n ∧
      Call.read u.fd buffer.length ∈ f.calls ∧
      f.data = (if priv.bitswap then
          bitswap (rx.take n ++ buffer.drop n) buffer.length
        else rx.take n ++ buffer.drop n) := by
  refine ⟨?_, ⟨?_, ?_⟩, ?_, ?_⟩
  · simp [gst_uart_src_fill, gst_uart_src_unlock, gst_poll_set_flushing, gst_poll_wait, hsr]
  · simp [gst_uart_src_unlock_stop, gst_uart_src_unlock, gst_poll_set_flushing, hsr]
  · simp [gst_uart_src_unlock_stop, gst_uart_src_unlock, gst_poll_set_flushing, hsw]
  · intro h1 h2
    cases priv
    cases sr
    cases sw
    simp only at hsr hsw h1 h2
    simp [gst_uart_src_unlock_stop, gst_uart_src_unlock, gst_poll_set_flushing, hsr, hsw, h1,
      h2]
  · have hwait : gst_poll_wait
        (gst_uart_src_unlock_stop (gst_uart_src_unlock priv).2).2.fdset_read poll = poll := by
      simp [gst_uart_src_unlock_stop, gst_uart_src_unlock, gst_poll_set_flushing, hsr,
        gst_poll_wait]
    obtain ⟨f, hfill, hflow, hsize, hdata, hcalls⟩ :=
      fill_reads bitswap (gst_uart_src_unlock_stop (gst_uart_src_unlock priv).2).2 u buffer rx
        poll n hu (by rw [hwait]; omega) hn
    refine ⟨f, hfill, hflow, hsize, ?_, hdata⟩
    rw [hcalls]
    simp

/-- Witness of C14: the source of the examples, a four-byte buffer, two bytes on the line. -/
theorem fill_cancelled_then_rearmed_witness :
    gst_uart_src_fill (bitswap_non64bit 64) (gst_uart_src_unlock (src_example false 0)).2
        [0, 0, 0, 0] ⟨1, true, 2, [0x41, 0x42]⟩ =
      some ⟨GstFlowReturn.GST_FLOW_FLUSHING, (gst_uart_src_unlock (src_example false 0)).2,
        [0, 0, 0, 0], 4, [Call.gst_poll_wait GST_CLOCK_TIME_NONE]⟩ ∧
    (gst_uart_src_unlock_stop (gst_uart_src_unlock (src_example false 0)).2).2 =
      src_example false 0 :=
  have h := fill_cancelled_then_rearmed (bitswap_non64bit 64) (src_example false 0) _ _ _
    [0, 0, 0, 0] [0x41, 0x42] ⟨1, true, 2, [0x41, 0x42]⟩ 1 2 rfl rfl rfl (by decide)
    (by decide)
  ⟨h.1, h.2.2.1 rfl rfl⟩

/-! ## Where the code departs from the specification -/

/-- C15, the code at a failing input: `gst_uart_sink_unlock` leaves the sink's sets as they
are (not flushing), so a `render` that reaches the wait after `unlock` is not cancelled: on
a timeout it resends and returns `GST_FLOW_OK`, not `GST_FLOW_FLUSHING`; the source's
`unlock` on the same sets does mark them flushing. -/
theorem sink_unlock_does_not_cancel :
    (gst_uart_sink_unlock (sink_example false true)).2 = sink_example false true ∧
    (gst_uart_sink_unlock (sink_example false true)).2.fdset_read = some ⟨false⟩ ∧
    (gst_uart_sink_render (bitswap_non64bit 64) (gst_uart_sink_unlock (sink_example false true)).2
      [0x41, 0x42] ⟨0, false, 0, 0, 0⟩).map (fun r => r.flow) =
      some GstFlowReturn.GST_FLOW_OK ∧
    (gst_uart_sink_render (bitswap_non64bit 64) (gst_uart_sink_unlock (sink_example false true)).2
      [0x41, 0x42] ⟨0, false, 0, 0, 0⟩).map (fun r => (writes r.calls).length) = some 2 ∧
    (gst_uart_src_unlock (src_example false 0)).2.fdset_read = some ⟨true⟩ := by
  decide

/-- C16, the code at a failing input: when `read` returns -1 `gst_uart_src_fill` still
returns `GST_FLOW_OK`, with the buffer at its full size and its memory as it was, while
`gst_uart_sink_render` on a failed read returns `GST_FLOW_ERROR`. -/
theorem fill_read_error_unreported :
    gst_uart_src_fill (bitswap_non64bit 64) (src_example false 0) [0, 0, 0, 0]
        ⟨1, true, -1, []⟩ =
      some ⟨GstFlowReturn.GST_FLOW_OK, src_example false 0, [0, 0, 0, 0], 4,
        [Call.gst_poll_wait GST_CLOCK_TIME_NONE, Call.gst_poll_fd_can_read 7,
          Call.gst_buffer_map, Call.read 7 4, Call.gst_buffer_unmap,
          Call.gst_buffer_set_size (-1)]⟩ ∧
    (gst_uart_sink_render (bitswap_non64bit 64) (sink_example false true) [0x41, 0x42]
      ⟨1, true, -1, 0, 0⟩).map (fun r => r.flow) = some GstFlowReturn.GST_FLOW_ERROR := by
  decide

/-- C19, the code at a failing input: when the wait is cancelled `render` returns
`GST_FLOW_FLUSHING` having mapped the buffer once and never unmapped it. -/
theorem render_flushing_skips_unmap :
    gst_uart_sink_render (bitswap_non64bit 64) (sink_example false true) [0x41, 0x42]
        ⟨-1, false, 0, 0, 0⟩ =
      some ⟨GstFlowReturn.GST_FLOW_FLUSHING, sink_example false true, [0x41, 0x42],
        [Call.gst_buffer_map, Call.write 5 [0x41, 0x42] 2, Call.tcdrain 5,
          Call.gst_poll_wait 100000]⟩ ∧
    (gst_uart_sink_render (bitswap_non64bit 64) (sink_example false true) [0x41, 0x42]
      ⟨-1, false, 0, 0, 0⟩).map
        (fun r => (r.calls.count Call.gst_buffer_map, r.calls.count Call.gst_buffer_unmap)) =
      some (1, 0) ∧
    (gst_uart_sink_render (bitswap_non64bit 64) (sink_example false true) [0x41, 0x42]
      ⟨1, true, 1, 0x06, 0⟩).map
        (fun r => (r.calls.count Call.gst_buffer_map, r.calls.count Call.gst_buffer_unmap)) =
      some (1, 1) := by
  decide

/-- C17, the code at a failing input: when the `open` of the device fails, `uart_open` and
`uart_open_raw` still return a link (descriptor -1, attributes left uninitialised), and
`start` of the sink and of the source, finding no null link, goes on to configure the line:
after the failed `g_open` it issues `tcflush`, `tcgetattr`, `tcsetattr` and two more
`tcgetattr` on descriptor -1 and ends in the `g_error` of `uart_set_baud_rate`, without
returning and without posting `OPEN_WRITE`. -/
theorem open_failure_unreported :
    (uart_open os_noent_example "/dev/ttyS0" O_RDWR fresh_example).1 =
      some ⟨-1, fresh_example.current, fresh_example.current⟩ ∧
    (uart_open_raw os_noent_example "/dev/ttyS0" O_RDWR fresh_example).1.map (fun u => u.fd) =
      some (-1) ∧
    (gst_uart_sink_start os_noent_example (sink_unstarted_example 115200) fresh_example
      fresh_example.orig (some ⟨false⟩) (some ⟨false⟩)).returned = none ∧
    (gst_uart_sink_start os_noent_example (sink_unstarted_example 115200) fresh_example
      fresh_example.orig (some ⟨false⟩) (some ⟨false⟩)).aborted_with = some "tcgetattr" ∧
    (gst_uart_sink_start os_noent_example (sink_unstarted_example 115200) fresh_example
      fresh_example.orig (some ⟨false⟩) (some ⟨false⟩)).calls_at_abort.map Call.isSetattr =
      [false, false, false, true, false, false] ∧
    (gst_uart_src_start os_noent_example (src_unstarted_example 115200) fresh_example
      fresh_example.orig (some ⟨false⟩) (some ⟨false⟩)).returned = none ∧
    (gst_uart_src_start os_noent_example (src_unstarted_example 115200) fresh_example
      fresh_example.orig (some ⟨false⟩) (some ⟨false⟩)).aborted_with = some "tcgetattr" := by
  decide

/-- C18, the code at a failing input: with the device `/dev/ttyS0` and 1200 baud `start` of
the sink and of the source returns `FALSE` with `SETTINGS`, but its last call is the bare
`g_close` of the descriptor: the device keeps the raw attributes `uart_open_raw` stored, not
the original ones, and the element keeps a non-null link with descriptor -1, on which a later
`stop` runs `uart_close` again (`tcsetattr` and `g_close` on -1, then `g_free`). -/
theorem settings_failure_leaves_link :
    (gst_uart_sink_start os_closed_example (sink_unstarted_example 1200) fresh_example
      fresh_example.orig (some ⟨false⟩) (some ⟨false⟩)).returned.map
      (fun r => (r.ret, r.error, r.priv.uart.map (fun u => u.fd), r.os.fds)) =
      some (false, some GstResourceError.SETTINGS, some (-1), []) ∧
    (gst_uart_sink_start os_closed_example (sink_unstarted_example 1200) fresh_example
      fresh_example.orig (some ⟨false⟩) (some ⟨false⟩)).returned.map
      (fun r => (decide (r.os.attrs = os_closed_example.attrs), r.os.attrs.c_lflag,
        r.os.calls.getLast?)) =
      some (false,
        clear_bits os_closed_example.attrs.c_lflag
          (ECHO ||| ECHONL ||| ICANON ||| ISIG ||| IEXTEN),
        some (Call.g_close 3)) ∧
    (gst_uart_sink_start os_closed_example (sink_unstarted_example 1200) fresh_example
      fresh_example.orig (some ⟨false⟩) (some ⟨false⟩)).returned.map
      (fun r => (gst_uart_sink_stop r.os r.priv).2.2.calls.drop r.os.calls.length) =
      some [Call.tcsetattr (-1) TCSAFLUSH os_closed_example.attrs, Call.g_close (-1),
        Call.g_free] ∧
    (gst_uart_src_start os_closed_example (src_unstarted_example 1200) fresh_example
      fresh_example.orig (some ⟨false⟩) (some ⟨false⟩)).returned.map
      (fun r => (r.ret, r.error, r.priv.uart.map (fun u => u.fd), r.os.fds)) =
      some (false, some GstResourceError.SETTINGS, some (-1), []) ∧
    (gst_uart_src_start os_closed_example (src_unstarted_example 1200) fresh_example
      fresh_example.orig (some ⟨false⟩) (some ⟨false⟩)).returned.map
      (fun r => (decide (r.os.attrs = os_closed_example.attrs), r.os.calls.getLast?)) =
      some (false, some (Call.g_close 3)) ∧
    (gst_uart_src_start os_closed_example (src_unstarted_example 1200) fresh_example
      fresh_example.orig (some ⟨false⟩) (some ⟨false⟩)).returned.map
      (fun r => (gst_uart_src_stop r.os r.priv).2.2.calls.drop r.os.calls.length) =
      some [Call.tcsetattr (-1) TCSAFLUSH os_closed_example.attrs, Call.g_close (-1),
        Call.g_free] :=
  ⟨by decide, by decide, by decide, by decide, by decide, by decide⟩

/-! ## Word size of the bit trick -/

/-- The loop of `bitswap_non64bit` does the same with two widths of `unsigned long` that
store the same byte for every byte. -/
theorem bitswap_loop_congr (w1 w2 : Nat) (h : ∀ b : Byte, bitswap_byte w1 b = bitswap_byte w2 b)
    (n : Nat) :
    ∀ (i : Nat) (buf : List Byte), bitswap_loop w1 n i buf = bitswap_loop w2 n i buf := by
  induction n with
  | zero => intro i buf; rfl
  | succ n ih =>
    intro i buf
    simp only [bitswap_loop, h, ih]

/-- C21: for every byte the byte `bitswap_non64bit` stores is the same whether `unsigned long`
arithmetic is reduced modulo `2 ^ 32`, modulo `2 ^ 64` or not reduced at all, and it is the
bit reversal of the byte (bit `k` of the result is bit `7 - k` of the byte) on both targets;
so the function gives the same buffer on 32-bit and on 64-bit targets.  The reduction is not
idle: for the byte `0xff` the last product exceeds `2 ^ 32`. -/
theorem bitswap_word_size_independent :
    (∀ b : Byte,
      bitswap_byte 32 b = bitswap_byte 64 b ∧
      (bitswap_byte 32 b).val =
        (((b.val * 0x0802 &&& 0x22110) ||| (b.val * 0x8020 &&& 0x88440)) * 0x10101) >>> 16
          % 256 ∧
      (bitswap_byte 64 b).val =
        (((b.val * 0x0802 &&& 0x22110) ||| (b.val * 0x8020 &&& 0x88440)) * 0x10101) >>> 16
          % 256 ∧
      ∀ k : Fin 8,
        (bitswap_byte 32 b).val.testBit k.val = b.val.testBit (7 - k.val) ∧
        (bitswap_byte 64 b).val.testBit k.val = b.val.testBit (7 - k.val)) ∧
    (∀ (buf : List Byte) (size : Nat),
      bitswap_non64bit 32 buf size = bitswap_non64bit 64 buf size) ∧
    2 ^ 32 ≤ ((0xff * 0x0802 &&& 0x22110) ||| (0xff * 0x8020 &&& 0x88440)) * 0x10101 := by
  have h32 : ∀ b : Byte, (bitswap_byte 32 b).val = bitswap_exact b.val :=
    fun b => bitswap_byte_val 32 (by decide) b
  have h64 : ∀ b : Byte, (bitswap_byte 64 b).val = bitswap_exact b.val :=
    fun b => bitswap_byte_val 64 (by decide) b
  have heq : ∀ b : Byte, bitswap_byte 32 b = bitswap_byte 64 b :=
    fun b => Fin.ext ((h32 b).trans (h64 b).symm)
  refine ⟨fun b => ⟨heq b, h32 b, h64 b, fun k => ⟨?_, ?_⟩⟩, ?_, by decide⟩
  · rw [h32 b]
    exact bitswap_exact_testBit b k
  · rw [h64 b]
    exact bitswap_exact_testBit b k
  · intro buf size
    exact bitswap_loop_congr 32 64 heq size 0 buf

end GstUart
